import Mathlib

/-!
Verification of the sysprobe sampling-and-derivation engine.

This file gives a shallow embedding, in Lean 4, of the stateful "monitor"
components of the sysprobe repository (CpuMonitor, MemoryMonitor,
StorageMonitor, NumaMonitor, PerfMonitor, ProcessMonitor) and proves
properties of the embedded code.

Modelling conventions:
- C++ `unsigned long` / `unsigned long long` counters (64-bit on the target
  platform) are modelled as `Nat`; C++ unsigned subtraction, which wraps
  modulo `2 ^ 64`, is modelled by `usub`; sums of wrapped values are reduced
  modulo `2 ^ 64` exactly where the C++ expression is of unsigned type.
- C++ `double`-valued derived fields are modelled as `ℚ` (exact arithmetic);
  "within floating rounding" claims are settled as exact rational equalities.
- The `/proc` and `/sys` text sources are abstracted into "raw reading"
  records holding the numeric fields the parsers extract; the parse functions
  of the embedding copy those fields into the monitor snapshots exactly as
  the C++ parsers do, leaving all other fields of the snapshot unchanged.
- `std::map` keyed state is modelled as an association list; `operator[]`
  value-initialisation (zero-initialised mapped values) is modelled by a
  `...Zero` default record.
-/

namespace SysProbe

open scoped List

/-- Width of the C++ `unsigned long` on the target platform: `2 ^ 64`. -/
def W : Nat := 2 ^ 64

/-- C++ unsigned 64-bit subtraction `a - b`: wraps modulo `2 ^ 64`
(no clamping).  For `b ≤ a < W` this is plain subtraction; for `a < b` it
produces the large wrapped value `W - (b - a)`. -/
def usub (a b : Nat) : Nat := (a + W - b % W) % W

theorem usub_of_le {a b : Nat} (h : b ≤ a) (ha : a < W) : usub a b = a - b := by
  unfold usub
  rw [Nat.mod_eq_of_lt (lt_of_le_of_lt h ha)]
  have hrw : a + W - b = (a - b) + W := by omega
  rw [hrw, Nat.add_mod_right, Nat.mod_eq_of_lt (by omega)]

theorem usub_of_lt {a b : Nat} (h : a < b) (hb : b < W) : usub a b = W - (b - a) := by
  have hW : 0 < W := by norm_num [W]
  unfold usub
  rw [Nat.mod_eq_of_lt hb]
  have hrw : a + W - b = W - (b - a) := by omega
  rw [hrw, Nat.mod_eq_of_lt (by omega)]

/-! ## CpuMonitor (src/src/CpuMonitor.cpp, src/include/CpuMonitor.h)

`struct CpuTimes`: ten raw jiffy counters read from the `cpu` line of
`/proc/stat`, plus ten derived percentage fields. -/

structure CpuTimes where
  user : Nat
  nice : Nat
  system : Nat
  idle : Nat
  iowait : Nat
  irq : Nat
  softirq : Nat
  steal : Nat
  guest : Nat
  guest_nice : Nat
  user_percent : ℚ
  nice_percent : ℚ
  system_percent : ℚ
  idle_percent : ℚ
  iowait_percent : ℚ
  irq_percent : ℚ
  softirq_percent : ℚ
  steal_percent : ℚ
  guest_percent : ℚ
  guest_nice_percent : ℚ
  deriving Repr, DecidableEq

/-- The ten numeric fields parsed from the `cpu` line of `/proc/stat`. -/
structure CpuRaw where
  user : Nat
  nice : Nat
  system : Nat
  idle : Nat
  iowait : Nat
  irq : Nat
  softirq : Nat
  steal : Nat
  guest : Nat
  guest_nice : Nat
  deriving Repr, DecidableEq

/-- `CpuMonitor` state: `current_`, `previous_`, `first_reading_`. -/
structure CpuMonitorState where
  current : CpuTimes
  previous : CpuTimes
  first_reading : Bool
  deriving Repr, DecidableEq

namespace CpuMonitor

/-- `CpuMonitor::parseProcStat`: overwrites only the ten raw counters of
`current_` with the freshly parsed values; the percentage fields of
`current_` are untouched by the parse. -/
def parseProcStat (c : CpuTimes) (r : CpuRaw) : CpuTimes :=
  { c with
    user := r.user, nice := r.nice, system := r.system, idle := r.idle,
    iowait := r.iowait, irq := r.irq, softirq := r.softirq, steal := r.steal,
    guest := r.guest, guest_nice := r.guest_nice }

/-- `CpuMonitor::calculatePercentages`: ten per-bucket unsigned deltas are
summed in `unsigned long` arithmetic (hence modulo `2 ^ 64`); if the total is
zero the function returns without touching any percentage field, otherwise
each percentage is `100 * delta / total`. -/
def calculatePercentages (previous current : CpuTimes) : CpuTimes :=
  let total_time : Nat :=
    (usub current.user previous.user +
     usub current.nice previous.nice +
     usub current.system previous.system +
     usub current.idle previous.idle +
     usub current.iowait previous.iowait +
     usub current.irq previous.irq +
     usub current.softirq previous.softirq +
     usub current.steal previous.steal +
     usub current.guest previous.guest +
     usub current.guest_nice previous.guest_nice) % W
  if total_time = 0 then current
  else
    { current with
      user_percent := 100 * (usub current.user previous.user : ℚ) / total_time,
      nice_percent := 100 * (usub current.nice previous.nice : ℚ) / total_time,
      system_percent := 100 * (usub current.system previous.system : ℚ) / total_time,
      idle_percent := 100 * (usub current.idle previous.idle : ℚ) / total_time,
      iowait_percent := 100 * (usub current.iowait previous.iowait : ℚ) / total_time,
      irq_percent := 100 * (usub current.irq previous.irq : ℚ) / total_time,
      softirq_percent := 100 * (usub current.softirq previous.softirq : ℚ) / total_time,
      steal_percent := 100 * (usub current.steal previous.steal : ℚ) / total_time,
      guest_percent := 100 * (usub current.guest previous.guest : ℚ) / total_time,
      guest_nice_percent := 100 * (usub current.guest_nice previous.guest_nice : ℚ) / total_time }

/-- `CpuMonitor::update` (the `/proc/interrupts` side table does not touch
`CpuTimes` and is outside the claims): `previous_ = current_`, re-parse the
`cpu` line into `current_`, then compute percentages unless this is the
first reading, in which case the flag is cleared and nothing is derived. -/
def update (s : CpuMonitorState) (r : CpuRaw) : CpuMonitorState :=
  let previous := s.current
  let current := parseProcStat s.current r
  if s.first_reading then
    { current := current, previous := previous, first_reading := false }
  else
    { current := calculatePercentages previous current,
      previous := previous, first_reading := false }

end CpuMonitor

/-- Componentwise `previous ≤ current` on the ten raw CPU counters. -/
def CpuLe (p c : CpuTimes) : Prop :=
  p.user ≤ c.user ∧ p.nice ≤ c.nice ∧ p.system ≤ c.system ∧ p.idle ≤ c.idle ∧
  p.iowait ≤ c.iowait ∧ p.irq ≤ c.irq ∧ p.softirq ≤ c.softirq ∧
  p.steal ≤ c.steal ∧ p.guest ≤ c.guest ∧ p.guest_nice ≤ c.guest_nice

instance (p c : CpuTimes) : Decidable (CpuLe p c) := by
  unfold CpuLe; infer_instance

/-- Each raw CPU counter is representable in an `unsigned long`. -/
def CpuBounded (c : CpuTimes) : Prop :=
  c.user < W ∧ c.nice < W ∧ c.system < W ∧ c.idle < W ∧ c.iowait < W ∧
  c.irq < W ∧ c.softirq < W ∧ c.steal < W ∧ c.guest < W ∧ c.guest_nice < W

instance (c : CpuTimes) : Decidable (CpuBounded c) := by
  unfold CpuBounded; infer_instance

/-- Mathematical (unwrapped) sum of the ten bucket deltas, for
`previous ≤ current` snapshots. -/
def cpuDelta (p c : CpuTimes) : Nat :=
  (c.user - p.user) + (c.nice - p.nice) + (c.system - p.system) +
  (c.idle - p.idle) + (c.iowait - p.iowait) + (c.irq - p.irq) +
  (c.softirq - p.softirq) + (c.steal - p.steal) + (c.guest - p.guest) +
  (c.guest_nice - p.guest_nice)

/-- Sum of the ten derived percentage fields. -/
def cpuPercentSum (c : CpuTimes) : ℚ :=
  c.user_percent + c.nice_percent + c.system_percent + c.idle_percent +
  c.iowait_percent + c.irq_percent + c.softirq_percent + c.steal_percent +
  c.guest_percent + c.guest_nice_percent

/-- The ten derived percentage fields, as a list (used to state that an
update leaves all of them untouched). -/
def cpuPercents (c : CpuTimes) : List ℚ :=
  [c.user_percent, c.nice_percent, c.system_percent, c.idle_percent,
   c.iowait_percent, c.irq_percent, c.softirq_percent, c.steal_percent,
   c.guest_percent, c.guest_nice_percent]

/-- A `CpuTimes` with all counters and all percentages zero. -/
def cpuZero : CpuTimes :=
  ⟨0, 0, 0, 0, 0, 0, 0, 0, 0, 0, 0, 0, 0, 0, 0, 0, 0, 0, 0, 0⟩

/-- A snapshot whose ten bucket deltas against `cpuZero` sum to exactly
`2 ^ 64`, so the `unsigned long` total in `calculatePercentages` wraps
to zero. -/
def cpuOverflowCur : CpuTimes := { cpuZero with user := 2 ^ 64 - 1, nice := 1 }

/-- A small well-behaved second reading: 3 user jiffies, 1 idle jiffy. -/
def cpuSmallCur : CpuTimes := { cpuZero with user := 3, idle := 1 }

/-- C1 fails as stated: for `previous = cpuZero` and `current =
cpuOverflowCur` every counter satisfies `previous ≤ current` and the sum of
the ten bucket deltas is positive (it equals `2 ^ 64`), yet
`calculatePercentages` leaves all percentage fields untouched (their sum
stays `0`, not `100`), because the `unsigned long` total wraps to zero. -/
theorem C1_counterexample :
    CpuLe cpuZero cpuOverflowCur ∧
    CpuBounded cpuOverflowCur ∧
    0 < cpuDelta cpuZero cpuOverflowCur ∧
    CpuMonitor.calculatePercentages cpuZero cpuOverflowCur = cpuOverflowCur ∧
    cpuPercentSum (CpuMonitor.calculatePercentages cpuZero cpuOverflowCur) = 0 := by
  refine ⟨by decide, by decide, by decide, ?_, ?_⟩ <;>
    simp [CpuMonitor.calculatePercentages, cpuPercentSum, usub, cpuZero,
      cpuOverflowCur, W]

/-- C1 (amended): for every pair of CPU snapshots with each counter
`previous ≤ current` and the true delta sum below `2 ^ 64`:
if the sum of bucket deltas is positive, `calculatePercentages` sets the ten
percentage fields so that they sum to exactly `100`; if the sum of deltas is
zero, the snapshot is returned with every field (in particular every
percentage field) exactly as it was. -/
theorem C1_amended (p c : CpuTimes) (hle : CpuLe p c) (hb : CpuBounded c)
    (hlt : cpuDelta p c < W) :
    (0 < cpuDelta p c →
      cpuPercentSum (CpuMonitor.calculatePercentages p c) = 100) ∧
    (cpuDelta p c = 0 → CpuMonitor.calculatePercentages p c = c) := by
  obtain ⟨l1, l2, l3, l4, l5, l6, l7, l8, l9, l10⟩ := hle
  obtain ⟨b1, b2, b3, b4, b5, b6, b7, b8, b9, b10⟩ := hb
  have e1 := usub_of_le l1 b1
  have e2 := usub_of_le l2 b2
  have e3 := usub_of_le l3 b3
  have e4 := usub_of_le l4 b4
  have e5 := usub_of_le l5 b5
  have e6 := usub_of_le l6 b6
  have e7 := usub_of_le l7 b7
  have e8 := usub_of_le l8 b8
  have e9 := usub_of_le l9 b9
  have e10 := usub_of_le l10 b10
  have hsum :
      usub c.user p.user + usub c.nice p.nice + usub c.system p.system +
        usub c.idle p.idle + usub c.iowait p.iowait + usub c.irq p.irq +
        usub c.softirq p.softirq + usub c.steal p.steal +
        usub c.guest p.guest + usub c.guest_nice p.guest_nice =
      cpuDelta p c := by
    rw [e1, e2, e3, e4, e5, e6, e7, e8, e9, e10]; rfl
  constructor
  · intro hpos
    have hne : cpuDelta p c % W ≠ 0 := by
      rw [Nat.mod_eq_of_lt hlt]; omega
    have hcast : ((cpuDelta p c : ℚ)) =
        ((c.user - p.user : Nat) : ℚ) + ((c.nice - p.nice : Nat) : ℚ) +
        ((c.system - p.system : Nat) : ℚ) + ((c.idle - p.idle : Nat) : ℚ) +
        ((c.iowait - p.iowait : Nat) : ℚ) + ((c.irq - p.irq : Nat) : ℚ) +
        ((c.softirq - p.softirq : Nat) : ℚ) + ((c.steal - p.steal : Nat) : ℚ) +
        ((c.guest - p.guest : Nat) : ℚ) + ((c.guest_nice - p.guest_nice : Nat) : ℚ) := by
      unfold cpuDelta; push_cast; ring
    have hDne : ((cpuDelta p c : ℚ)) ≠ 0 := by
      exact_mod_cast Nat.pos_iff_ne_zero.mp hpos
    unfold CpuMonitor.calculatePercentages
    rw [hsum, if_neg hne, Nat.mod_eq_of_lt hlt]
    unfold cpuPercentSum
    simp only
    rw [e1, e2, e3, e4, e5, e6, e7, e8, e9, e10]
    field_simp
    rw [hcast]
    rw [Nat.cast_sub l1, Nat.cast_sub l2, Nat.cast_sub l3, Nat.cast_sub l4,
      Nat.cast_sub l5, Nat.cast_sub l6, Nat.cast_sub l7, Nat.cast_sub l8,
      Nat.cast_sub l9, Nat.cast_sub l10]
    ring
  · intro hzero
    have hmod : cpuDelta p c % W = 0 := by rw [hzero]; rfl
    unfold CpuMonitor.calculatePercentages
    rw [hsum, hmod, if_pos rfl]

/-- C1 amended, at concrete inputs: a 3-user/1-idle delta gives percentages
summing to 100, and a zero-delta tick leaves the snapshot unchanged. -/
theorem C1_amended_witness :
    cpuPercentSum (CpuMonitor.calculatePercentages cpuZero cpuSmallCur) = 100 ∧
    CpuMonitor.calculatePercentages cpuSmallCur cpuSmallCur = cpuSmallCur :=
  ⟨(C1_amended cpuZero cpuSmallCur (by decide) (by decide) (by decide)).1 (by decide),
   (C1_amended cpuSmallCur cpuSmallCur (by decide) (by decide) (by decide)).2 (by decide)⟩

/-! ## MemoryMonitor (src/src/MemoryMonitor.cpp, src/include/MemoryMonitor.h)

`struct MemoryStats`: absolute kB quantities from `/proc/meminfo` plus
derived percentages and bottleneck flags.  `MemoryMonitor::update` has no
first-reading guard and no use of `previous_`: it parses, then calls
`calculatePercentages` and `detectBottlenecks` unconditionally. -/

structure MemoryStats where
  mem_total : Nat
  mem_free : Nat
  mem_available : Nat
  buffers : Nat
  cached : Nat
  swap_cached : Nat
  active : Nat
  inactive : Nat
  dirty : Nat
  writeback : Nat
  memory_usage_percent : ℚ
  available_percent : ℚ
  buffer_percent : ℚ
  cache_percent : ℚ
  buffer_efficiency : ℚ
  cache_efficiency : ℚ
  memory_pressure : Bool
  storage_bottleneck : Bool
  write_bottleneck : Bool
  deriving Repr, DecidableEq

/-- The numeric fields `MemoryMonitor::parseMemInfo` extracts from
`/proc/meminfo`. -/
structure MemRaw where
  mem_total : Nat
  mem_free : Nat
  mem_available : Nat
  buffers : Nat
  cached : Nat
  swap_cached : Nat
  active : Nat
  inactive : Nat
  dirty : Nat
  writeback : Nat
  deriving Repr, DecidableEq

namespace MemoryMonitor

/-- `MemoryMonitor::parseMemInfo`: overwrites the raw kB fields of
`current_`; derived fields are untouched by the parse. -/
def parseMemInfo (c : MemoryStats) (r : MemRaw) : MemoryStats :=
  { c with
    mem_total := r.mem_total, mem_free := r.mem_free,
    mem_available := r.mem_available, buffers := r.buffers,
    cached := r.cached, swap_cached := r.swap_cached, active := r.active,
    inactive := r.inactive, dirty := r.dirty, writeback := r.writeback }

/-- `MemoryMonitor::calculatePercentages`: early return on `mem_total == 0`;
`memory_usage_percent = 100 * (mem_total - mem_available) / mem_total` with
the numerator computed in `unsigned long` arithmetic (wrapping), and
`available_percent = 100 * mem_available / mem_total`; buffer/cache
efficiency split of `buffers + cached`, both zero when that sum is zero. -/
def calculatePercentages (c : MemoryStats) : MemoryStats :=
  if c.mem_total = 0 then c
  else
    let total_cache := (c.buffers + c.cached) % W
    { c with
      memory_usage_percent :=
        100 * (usub c.mem_total c.mem_available : ℚ) / c.mem_total,
      available_percent := 100 * (c.mem_available : ℚ) / c.mem_total,
      buffer_efficiency :=
        if 0 < total_cache then 100 * (c.buffers : ℚ) / total_cache else 0,
      cache_efficiency :=
        if 0 < total_cache then 100 * (c.cached : ℚ) / total_cache else 0 }

/-- `MemoryMonitor::detectBottlenecks`: `memory_pressure` iff
`available_percent < 10.0`; helper percentages of dirty/writeback/cache are
computed from the current snapshot (guarded on `mem_total > 0`);
`storage_bottleneck` and `write_bottleneck` by the fixed thresholds. -/
def detectBottlenecks (c : MemoryStats) : MemoryStats :=
  let memory_pressure : Bool := decide (c.available_percent < 10)
  let dirty_percent : ℚ :=
    if 0 < c.mem_total then 100 * (c.dirty : ℚ) / c.mem_total else 0
  let writeback_percent : ℚ :=
    if 0 < c.mem_total then 100 * (c.writeback : ℚ) / c.mem_total else 0
  let total_cache_kb := (c.buffers + c.cached) % W
  let total_cache_percent : ℚ :=
    if 0 < c.mem_total then 100 * (total_cache_kb : ℚ) / c.mem_total else 0
  { c with
    memory_pressure := memory_pressure,
    storage_bottleneck :=
      decide (2 < dirty_percent) || decide (1 < writeback_percent) ||
        (memory_pressure && decide (total_cache_percent < 15)),
    write_bottleneck := decide (5 < dirty_percent) }

/-- `MemoryMonitor::update`: parse, then derive percentages and bottleneck
flags unconditionally (no first-reading suppression in this sampler). -/
def update (c : MemoryStats) (r : MemRaw) : MemoryStats :=
  detectBottlenecks (calculatePercentages (parseMemInfo c r))

end MemoryMonitor

/-- A `MemoryStats` with every field zero / false. -/
def memZero : MemoryStats :=
  ⟨0, 0, 0, 0, 0, 0, 0, 0, 0, 0, 0, 0, 0, 0, 0, 0, false, false, false⟩

/-- A raw meminfo reading with `MemAvailable > MemTotal` (parseable text, but
inconsistent accounting): total 1 kB, available 2 kB. -/
def memRawInconsistent : MemRaw := ⟨1, 0, 2, 0, 0, 0, 0, 0, 0, 0⟩

/-- A well-formed raw meminfo reading: total 1000 kB, available 250 kB. -/
def memRawGood : MemRaw := ⟨1000, 400, 250, 50, 150, 0, 300, 200, 10, 2⟩

/-- C3 fails as stated: a parsed snapshot with `mem_total = 1 > 0` but
`mem_available = 2` makes the `unsigned long` numerator
`mem_total - mem_available` wrap, so after `update()` the two percentages
sum to `100 * (2^64 - 1) + 200`, not `100`. -/
theorem C3_counterexample :
    0 < (MemoryMonitor.update memZero memRawInconsistent).mem_total ∧
    (MemoryMonitor.update memZero memRawInconsistent).memory_usage_percent +
      (MemoryMonitor.update memZero memRawInconsistent).available_percent =
      100 * (2 ^ 64 - 1 : ℚ) + 200 ∧
    100 * (2 ^ 64 - 1 : ℚ) + 200 ≠ 100 := by
  refine ⟨?_, ?_, by norm_num⟩ <;>
    norm_num [MemoryMonitor.update, MemoryMonitor.parseMemInfo,
      MemoryMonitor.calculatePercentages, MemoryMonitor.detectBottlenecks,
      memZero, memRawInconsistent, usub, W]

/-- C3 (amended): for every parsed memory snapshot with
`0 < mem_total < 2 ^ 64` and `mem_available ≤ mem_total`, after `update()`
the fields satisfy `memory_usage_percent + available_percent = 100` exactly,
and `memory_pressure` is true iff `available_percent < 10.0`. -/
theorem C3_amended (s : MemoryStats) (r : MemRaw) (h0 : 0 < r.mem_total)
    (hb : r.mem_total < W) (hle : r.mem_available ≤ r.mem_total) :
    (MemoryMonitor.update s r).memory_usage_percent +
      (MemoryMonitor.update s r).available_percent = 100 ∧
    ((MemoryMonitor.update s r).memory_pressure = true ↔
      (MemoryMonitor.update s r).available_percent < 10) := by
  have hne : r.mem_total ≠ 0 := by omega
  have hu : usub r.mem_total r.mem_available = r.mem_total - r.mem_available :=
    usub_of_le hle hb
  have hQ : ((r.mem_total : ℚ)) ≠ 0 := by exact_mod_cast hne
  unfold MemoryMonitor.update MemoryMonitor.parseMemInfo
    MemoryMonitor.calculatePercentages MemoryMonitor.detectBottlenecks
  simp only [hne, if_false, ite_false, if_neg hne]
  constructor
  · simp only [hu]
    rw [Nat.cast_sub hle]
    field_simp
    ring
  · simp only [decide_eq_true_iff]

/-- C3 amended, at a concrete input: total 1000 kB, available 250 kB gives
75% used + 25% available = 100%, and no memory pressure. -/
theorem C3_amended_witness :
    (MemoryMonitor.update memZero memRawGood).memory_usage_percent +
      (MemoryMonitor.update memZero memRawGood).available_percent = 100 ∧
    ((MemoryMonitor.update memZero memRawGood).memory_pressure = true ↔
      (MemoryMonitor.update memZero memRawGood).available_percent < 10) :=
  C3_amended memZero memRawGood (by decide) (by decide) (by decide)

/-! ## StorageMonitor (src/src/StorageMonitor.cpp, src/include/StorageMonitor.h)

`disk_stats_` is a `std::map<std::string, DiskStats>`, modelled as an
association list keyed by device name (`std::map` iterates in sorted key
order; among the claims the iteration order could matter only for
tie-breaking between devices of equal IOPS, which `std::sort` leaves
unspecified anyway). -/

structure DiskStats where
  device_name : String
  reads : Nat
  read_merges : Nat
  read_sectors : Nat
  read_time : Nat
  writes : Nat
  write_merges : Nat
  write_sectors : Nat
  write_time : Nat
  io_in_progress : Nat
  io_time : Nat
  weighted_io_time : Nat
  read_iops : ℚ
  write_iops : ℚ
  total_iops : ℚ
  read_mbps : ℚ
  write_mbps : ℚ
  total_mbps : ℚ
  avg_latency : ℚ
  queue_depth : ℚ
  is_hot_device : Bool
  deriving Repr, DecidableEq

/-- One matching `/proc/diskstats` row: device name and the 11 counters the
parser extracts. -/
structure DiskRaw where
  device_name : String
  reads : Nat
  read_merges : Nat
  read_sectors : Nat
  read_time : Nat
  writes : Nat
  write_merges : Nat
  write_sectors : Nat
  write_time : Nat
  io_in_progress : Nat
  io_time : Nat
  weighted_io_time : Nat
  deriving Repr, DecidableEq

/-- Association-list lookup (model of `std::map::find`). -/
def alLookup {κ α : Type} [DecidableEq κ] (m : List (κ × α)) (k : κ) :
    Option α :=
  match m with
  | [] => none
  | (k', v) :: rest => if k' = k then some v else alLookup rest k

/-- Association-list insert-or-replace (model of `map[k] = v`). -/
def alInsert {κ α : Type} [DecidableEq κ] (m : List (κ × α)) (k : κ) (v : α) :
    List (κ × α) :=
  match m with
  | [] => [(k, v)]
  | (k', v') :: rest =>
    if k' = k then (k, v) :: rest else (k', v') :: alInsert rest k v

/-- Every binding of `alInsert m k v` is `(k, v)` or a binding of `m`. -/
theorem mem_alInsert {κ α : Type} [DecidableEq κ] {m : List (κ × α)} {k : κ}
    {v : α} {e : κ × α} (h : e ∈ alInsert m k v) : e = (k, v) ∨ e ∈ m := by
  induction m with
  | nil => simpa [alInsert] using h
  | cons x rest ih =>
    unfold alInsert at h
    by_cases hk : x.1 = k
    · rw [if_pos hk] at h
      rcases List.mem_cons.mp h with h' | h'
      · exact Or.inl h'
      · exact Or.inr (List.mem_cons_of_mem _ h')
    · rw [if_neg hk] at h
      rcases List.mem_cons.mp h with h' | h'
      · exact Or.inr (h' ▸ List.mem_cons_self _ _)
      · rcases ih h' with h'' | h''
        · exact Or.inl h''
        · exact Or.inr (List.mem_cons_of_mem _ h'')

/-- `alInsert` never loses a key. -/
theorem alInsert_keys {κ α : Type} [DecidableEq κ] {m : List (κ × α)} {k' : κ}
    (k : κ) (v : α) (h : k' ∈ m.map Prod.fst) :
    k' ∈ (alInsert m k v).map Prod.fst := by
  induction m with
  | nil => simp at h
  | cons x rest ih =>
    unfold alInsert
    by_cases hk : x.1 = k
    · rw [if_pos hk]
      simpa [hk] using h
    · rw [if_neg hk]
      rcases List.mem_map.mp h with ⟨e, he, hfst⟩
      subst hfst
      rcases List.mem_cons.mp he with h' | h'
      · subst h'
        exact List.mem_map_of_mem _ (List.mem_cons_self _ _)
      · have := ih (List.mem_map_of_mem Prod.fst h')
        rcases List.mem_map.mp this with ⟨e', he', hfst'⟩
        exact hfst' ▸ List.mem_map_of_mem _ (List.mem_cons_of_mem _ he')

/-- A binding found by `alLookup` is a binding of the list. -/
theorem alLookup_mem {κ α : Type} [DecidableEq κ] {m : List (κ × α)} {k : κ}
    {v : α} (h : alLookup m k = some v) : (k, v) ∈ m := by
  induction m with
  | nil => simp [alLookup] at h
  | cons x rest ih =>
    unfold alLookup at h
    by_cases hk : x.1 = k
    · rw [if_pos hk] at h
      have : x = (k, v) := by
        cases x with
        | mk a b => cases hk; cases Option.some.inj h; rfl
      exact this ▸ List.mem_cons_self _ _
    · rw [if_neg hk] at h
      exact List.mem_cons_of_mem _ (ih h)

namespace StorageMonitor

/-- The `DiskStats` record built by `parseDiskStats` for a freshly parsed
row: the 11 counters come from the row; the derived members of the local
`DiskStats stats;` are never assigned before the record is copied into the
map (C++ leaves them indeterminate); the model takes them as the
value-initialised zero / false. -/
def freshStats (r : DiskRaw) : DiskStats :=
  { device_name := r.device_name, reads := r.reads,
    read_merges := r.read_merges, read_sectors := r.read_sectors,
    read_time := r.read_time, writes := r.writes,
    write_merges := r.write_merges, write_sectors := r.write_sectors,
    write_time := r.write_time, io_in_progress := r.io_in_progress,
    io_time := r.io_time, weighted_io_time := r.weighted_io_time,
    read_iops := 0, write_iops := 0, total_iops := 0, read_mbps := 0,
    write_mbps := 0, total_mbps := 0, avg_latency := 0, queue_depth := 0,
    is_hot_device := false }

/-- `StorageMonitor::parseDiskStats`: every row whose device name is in the
discovered-device list overwrites (or creates) that device's map entry with
a fresh record; entries of devices without a row this tick are left as they
are. -/
def parseDiskStats (devices : List String) (m : List (String × DiskStats))
    (rows : List DiskRaw) : List (String × DiskStats) :=
  rows.foldl
    (fun acc r =>
      if r.device_name ∈ devices then
        alInsert acc r.device_name (freshStats r)
      else acc)
    m

/-- Per-device body of `StorageMonitor::calculatePerformance`: all deltas
are `unsigned long` subtractions (wrapping, no clamping); `total_iops` and
the latency denominator `total_ops` are `unsigned long` sums (wrapping);
throughput converts sectors to MB at 512 bytes/sector; latency is
`io_time / total_ops` guarded by `total_ops > 0`; `queue_depth` copies the
instantaneous `io_in_progress` gauge. -/
def calcDevice (prev c : DiskStats) : DiskStats :=
  let read_ops := usub c.reads prev.reads
  let write_ops := usub c.writes prev.writes
  let read_sectors := usub c.read_sectors prev.read_sectors
  let write_sectors := usub c.write_sectors prev.write_sectors
  let io_time := usub c.io_time prev.io_time
  let total_ops := (read_ops + write_ops) % W
  let read_mbps : ℚ := (read_sectors : ℚ) * 512 / (1024 * 1024)
  let write_mbps : ℚ := (write_sectors : ℚ) * 512 / (1024 * 1024)
  { c with
    read_iops := (read_ops : ℚ),
    write_iops := (write_ops : ℚ),
    total_iops := (total_ops : ℚ),
    read_mbps := read_mbps,
    write_mbps := write_mbps,
    total_mbps := read_mbps + write_mbps,
    avg_latency := if 0 < total_ops then (io_time : ℚ) / total_ops else 0,
    queue_depth := (c.io_in_progress : ℚ) }

/-- `StorageMonitor::calculatePerformance`: on the first reading, clear the
flag and derive nothing; otherwise update every device that also has a
previous-tick entry (others are skipped). Returns the new
`first_reading_` value and the updated map. -/
def calculatePerformance (first_reading : Bool)
    (prev m : List (String × DiskStats)) :
    Bool × List (String × DiskStats) :=
  if first_reading then (false, m)
  else
    (false,
      m.map fun e =>
        match alLookup prev e.1 with
        | none => e
        | some p => (e.1, calcDevice p e.2))

/-- The comparator of the `std::sort` call in `detectHotDevices`
(`a.second > b.second`): entries ranked non-ascending by IOPS. -/
def iopsDesc : (String × ℚ) → (String × ℚ) → Prop := fun a b => b.2 ≤ a.2

instance : DecidableRel iopsDesc := fun a b =>
  inferInstanceAs (Decidable (b.2 ≤ a.2))

instance : IsTotal (String × ℚ) iopsDesc := ⟨fun a b => le_total b.2 a.2⟩

instance : IsTrans (String × ℚ) iopsDesc :=
  ⟨fun _ _ _ hab hbc => le_trans hbc hab⟩

/-- The `device_iops` vector of `detectHotDevices`, sorted by IOPS
descending.  `std::sort` produces some permutation ordered by the
comparator; it is modelled by `List.insertionSort`, which produces one such
permutation (the choice among equal-IOPS permutations affects only which of
the tied devices are marked, never how many). -/
def sortedIops (m : List (String × DiskStats)) : List (String × ℚ) :=
  List.insertionSort iopsDesc (m.map fun e => (e.1, e.2.total_iops))

/-- `hot_count` in `detectHotDevices`: `std::max(1UL, size / 4)` —
C++ unsigned division, i.e. `max 1 (⌊N / 4⌋)`. -/
def hotCount (m : List (String × DiskStats)) : Nat := max 1 (m.length / 4)

/-- The device names marked hot: the first `hot_count` entries of the
IOPS-descending ranking. -/
def hotNames (m : List (String × DiskStats)) : List String :=
  ((sortedIops m).take (hotCount m)).map Prod.fst

/-- `StorageMonitor::detectHotDevices`: empty map → no-op; otherwise set
`is_hot_device` on the top `max(1, N/4)` names; the loop sets the flag only
on selected devices, leaving every other entry's flag as it was. -/
def detectHotDevices (m : List (String × DiskStats)) :
    List (String × DiskStats) :=
  if m.isEmpty then m
  else
    m.map fun e =>
      if e.1 ∈ hotNames m then (e.1, { e.2 with is_hot_device := true })
      else e

/-- `QueueStats` record (filled by `calculateQueueStats`). -/
structure QueueStats where
  device_name : String
  queue_depth : Nat
  max_queue_depth : Nat
  avg_queue_depth : ℚ
  queue_utilization : ℚ
  deriving Repr, DecidableEq

/-- `StorageMonitor::calculateQueueStats`: rebuilds the per-device
`queue_stats_` entries from the instantaneous `io_in_progress` gauge
(assumed max queue depth 128); it does not modify `disk_stats_`. -/
def calculateQueueStats (m : List (String × DiskStats))
    (q : List (String × QueueStats)) : List (String × QueueStats) :=
  m.foldl
    (fun acc e =>
      alInsert acc e.1
        { device_name := e.1, queue_depth := e.2.io_in_progress,
          max_queue_depth := 128, avg_queue_depth := e.2.queue_depth,
          queue_utilization := (e.2.io_in_progress : ℚ) / 128 * 100 })
    q

end StorageMonitor

/-- `StorageMonitor` state: `disk_stats_`, `previous_stats_`,
`queue_stats_`, the discovered device list, `first_reading_`. -/
structure StorageMonitorState where
  disk_stats : List (String × DiskStats)
  previous_stats : List (String × DiskStats)
  queue_stats : List (String × StorageMonitor.QueueStats)
  devices : List String
  first_reading : Bool

namespace StorageMonitor

/-- `StorageMonitor::update`: save `previous_stats_`, re-parse, compute
performance deltas (skipped on the first reading), re-detect hot devices,
rebuild queue statistics. -/
def update (s : StorageMonitorState) (rows : List DiskRaw) :
    StorageMonitorState :=
  let previous_stats := s.disk_stats
  let parsed := parseDiskStats s.devices s.disk_stats rows
  let fm := calculatePerformance s.first_reading previous_stats parsed
  let hot := detectHotDevices fm.2
  { disk_stats := hot,
    previous_stats := previous_stats,
    queue_stats := calculateQueueStats hot s.queue_stats,
    devices := s.devices,
    first_reading := fm.1 }

end StorageMonitor

/-- Number of devices currently flagged hot (the loop of
`StorageMonitor::getHotDeviceCount`). -/
def hotDeviceCount (m : List (String × DiskStats)) : Nat :=
  (m.filter fun e => e.2.is_hot_device).length

/-- A previous-tick device record with `reads = 10` (all else zero). -/
def diskPrevReset : DiskStats :=
  StorageMonitor.freshStats ⟨"nvme0n1", 10, 0, 0, 0, 0, 0, 0, 0, 0, 0, 0⟩

/-- A current-tick record for the same device after a counter reset:
`reads = 5 < 10`. -/
def diskCurReset : DiskStats :=
  StorageMonitor.freshStats ⟨"nvme0n1", 5, 0, 0, 0, 0, 0, 0, 0, 0, 0, 0⟩

/-- A previous CPU snapshot with `user = 10`, and a current one in which the
`user` counter reset to `5` while `idle` advanced to `10`. -/
def cpuPrevReset : CpuTimes := { cpuZero with user := 10 }

def cpuCurReset : CpuTimes := { cpuZero with user := 5, idle := 10 }

/-- C4 fails on the code: no delta is clamped on a counter reset.  On the
CPU side, `user` falling from 10 to 5 while `idle` advances by 10 makes the
wrapped user delta `2^64 - 5`, the wrapped total `5`, and the derived
`user_percent = 20 * (2^64 - 5)` — overflow-large, not zero.  On the storage
side, `reads` falling from 10 to 5 gives `read_iops = 2^64 - 5` and
`total_iops = 2^64 - 5` instead of zero. -/
theorem C4_unclamped_reset :
    (CpuMonitor.calculatePercentages cpuPrevReset cpuCurReset).user_percent =
      20 * ((2 : ℚ) ^ 64 - 5) ∧
    (100 : ℚ) <
      (CpuMonitor.calculatePercentages cpuPrevReset cpuCurReset).user_percent ∧
    (StorageMonitor.calcDevice diskPrevReset diskCurReset).read_iops =
      (2 : ℚ) ^ 64 - 5 ∧
    (StorageMonitor.calcDevice diskPrevReset diskCurReset).total_iops =
      (2 : ℚ) ^ 64 - 5 := by
  refine ⟨?_, ?_, ?_, ?_⟩ <;>
    norm_num [CpuMonitor.calculatePercentages, StorageMonitor.calcDevice,
      cpuPrevReset, cpuCurReset, cpuZero, diskPrevReset, diskCurReset,
      StorageMonitor.freshStats, usub, W]

/-- Counting a duplicate-free sublist: if `K` and `H` are duplicate-free and
`H ⊆ K`, then exactly `H.length` elements of `K` lie in `H`. -/
theorem length_filter_mem {K H : List String} (hK : K.Nodup) (hH : H.Nodup)
    (hsub : H ⊆ K) :
    (K.filter fun x => decide (x ∈ H)).length = H.length := by
  have h1 : (K.filter fun x => decide (x ∈ H)) <+~ H := by
    refine (hK.filter _).subperm fun x hx => ?_
    simpa using (List.mem_filter.mp hx).2
  have h2 : H <+~ K.filter fun x => decide (x ∈ H) := by
    refine hH.subperm fun x hx => List.mem_filter.mpr ⟨hsub hx, by simpa using hx⟩
  exact (h1.antisymm h2).length_eq

/-- The names ranked by `sortedIops` are a permutation of the map's keys. -/
theorem sortedIops_fst_perm (m : List (String × DiskStats)) :
    (StorageMonitor.sortedIops m).map Prod.fst ~ m.map Prod.fst := by
  have h :=
    (List.perm_insertionSort StorageMonitor.iopsDesc
      (m.map fun e => (e.1, e.2.total_iops))).map Prod.fst
  simpa [List.map_map, Function.comp] using h

/-- `hotNames` facts: duplicate-free, contained in the map's keys, and of
size exactly `max 1 (N / 4)` (for a duplicate-free key list). -/
theorem hotNames_spec (m : List (String × DiskStats))
    (hnodup : (m.map Prod.fst).Nodup) :
    (StorageMonitor.hotNames m).Nodup ∧
    StorageMonitor.hotNames m ⊆ m.map Prod.fst ∧
    (StorageMonitor.hotCount m ≤ m.length →
      (StorageMonitor.hotNames m).length = StorageMonitor.hotCount m) := by
  have hfst := sortedIops_fst_perm m
  have hsortednodup : ((StorageMonitor.sortedIops m).map Prod.fst).Nodup :=
    hfst.nodup_iff.mpr hnodup
  have hdef : StorageMonitor.hotNames m =
      ((StorageMonitor.sortedIops m).map Prod.fst).take
        (StorageMonitor.hotCount m) := by
    simp [StorageMonitor.hotNames, List.map_take]
  have hsl : StorageMonitor.hotNames m <+
      (StorageMonitor.sortedIops m).map Prod.fst := by
    rw [hdef]; exact List.take_sublist _ _
  refine ⟨hsl.nodup hsortednodup, fun x hx => hfst.mem_iff.mp (hsl.subset hx), ?_⟩
  intro hkle
  rw [hdef, List.length_take, List.length_map]
  unfold StorageMonitor.sortedIops
  rw [(List.perm_insertionSort _ _).length_eq, List.length_map]
  exact min_eq_left hkle

/-- C5 (amended): on every tick with `N ≥ 1` devices present (distinct
device names, hot flags cleared by the fresh per-tick parse),
`detectHotDevices` marks exactly `max 1 (⌊N / 4⌋)` devices as hot — the
top of the IOPS-descending ranking — and never fewer than 1. -/
theorem C5_amended (m : List (String × DiskStats)) (hne : m ≠ [])
    (hnodup : (m.map Prod.fst).Nodup)
    (hflags : ∀ e ∈ m, e.2.is_hot_device = false) :
    hotDeviceCount (StorageMonitor.detectHotDevices m) =
      max 1 (m.length / 4) ∧
    1 ≤ hotDeviceCount (StorageMonitor.detectHotDevices m) := by
  have hlen : 0 < m.length := List.length_pos.mpr hne
  have hkle : StorageMonitor.hotCount m ≤ m.length :=
    max_le hlen (Nat.div_le_self _ _)
  obtain ⟨hHnodup, hHsub, hHlen⟩ := hotNames_spec m hnodup
  suffices hkey : hotDeviceCount (StorageMonitor.detectHotDevices m) =
      max 1 (m.length / 4) by
    exact ⟨hkey, by rw [hkey]; exact le_max_left _ _⟩
  unfold hotDeviceCount StorageMonitor.detectHotDevices
  rw [if_neg (by simpa [List.isEmpty_iff] using hne)]
  rw [List.filter_map, List.length_map]
  have hcongr : ∀ e ∈ m,
      ((fun e : String × DiskStats => e.2.is_hot_device) ∘ fun e =>
        if e.1 ∈ StorageMonitor.hotNames m then
          (e.1, { e.2 with is_hot_device := true })
        else e) e =
      decide (e.1 ∈ StorageMonitor.hotNames m) := by
    intro e he
    by_cases h : e.1 ∈ StorageMonitor.hotNames m <;>
      simp [h, Function.comp, hflags e he]
  rw [List.filter_congr hcongr]
  have htransfer :
      (m.filter fun e => decide (e.1 ∈ StorageMonitor.hotNames m)).length =
      ((m.map Prod.fst).filter fun x =>
        decide (x ∈ StorageMonitor.hotNames m)).length := by
    rw [List.filter_map, List.length_map]; rfl
  rw [htransfer, length_filter_mem hnodup hHnodup hHsub, hHlen hkle]
  rfl

/-- Four devices ranked [100, 90, 10, 5] IOPS, all flags clear (the §8 spec
instance). -/
def disk4 : List (String × DiskStats) :=
  [("nvme0n1", { StorageMonitor.freshStats
      ⟨"nvme0n1", 0, 0, 0, 0, 0, 0, 0, 0, 0, 0, 0⟩ with total_iops := 100 }),
   ("nvme1n1", { StorageMonitor.freshStats
      ⟨"nvme1n1", 0, 0, 0, 0, 0, 0, 0, 0, 0, 0, 0⟩ with total_iops := 90 }),
   ("nvme2n1", { StorageMonitor.freshStats
      ⟨"nvme2n1", 0, 0, 0, 0, 0, 0, 0, 0, 0, 0, 0⟩ with total_iops := 10 }),
   ("nvme3n1", { StorageMonitor.freshStats
      ⟨"nvme3n1", 0, 0, 0, 0, 0, 0, 0, 0, 0, 0, 0⟩ with total_iops := 5 })]

/-- Five devices ranked [100, 90, 80, 10, 5] IOPS, all flags clear. -/
def disk5 : List (String × DiskStats) :=
  disk4 ++ [("nvme4n1", { StorageMonitor.freshStats
      ⟨"nvme4n1", 0, 0, 0, 0, 0, 0, 0, 0, 0, 0, 0⟩ with total_iops := 80 })]

/-- C5 fails as stated: with `N = 5` devices the code marks
`max(1, 5 / 4) = 1` device hot, but `ceil(5 / 4) = 2`; the claim's
`ceil(N/4)` does not match the code's floor division. -/
theorem C5_counterexample :
    hotDeviceCount (StorageMonitor.detectHotDevices disk5) = 1 ∧
    (5 + 4 - 1) / 4 = 2 ∧ (1 : Nat) ≠ 2 := by
  refine ⟨by decide, by norm_num, by norm_num⟩

/-- C5 amended, at the spec's own instance: 4 devices at IOPS
[100, 90, 10, 5] get exactly `max 1 (4 / 4) = 1` hot device. -/
theorem C5_amended_witness :
    hotDeviceCount (StorageMonitor.detectHotDevices disk4) =
      max 1 (disk4.length / 4) ∧
    1 ≤ hotDeviceCount (StorageMonitor.detectHotDevices disk4) :=
  C5_amended disk4 (by decide)
    (by decide)
    (by decide)

/-! ## PerfMonitor (src/src/PerfMonitor.cpp, src/include/PerfMonitor.h)

The Linux build is modelled (the `#else` branches are the non-Linux
simulation).  `initialize()` attempts to open 8 counters in a fixed order
via `setupPerfEvent`; the outcome of each attempted open is abstracted as a
list of booleans.  On the Linux path, `initialize()` returns `false` at the
first failed open (leaving `initialized_` false), and `update()` first
re-runs `initialize()` when not initialized, returning `false` if it
fails. -/

structure PerfCounters where
  cpu_cycles : Nat
  instructions : Nat
  cache_references : Nat
  cache_misses : Nat
  branch_instructions : Nat
  branch_misses : Nat
  context_switches : Nat
  page_faults : Nat
  ipc : ℚ
  cache_hit_rate : ℚ
  branch_miss_rate : ℚ
  context_switch_rate : ℚ
  page_fault_rate : ℚ
  deriving Repr, DecidableEq

/-- One reading of the 8 open counters. -/
structure PerfRaw where
  cpu_cycles : Nat
  instructions : Nat
  cache_references : Nat
  cache_misses : Nat
  branch_instructions : Nat
  branch_misses : Nat
  context_switches : Nat
  page_faults : Nat
  deriving Repr, DecidableEq

/-- `PerfMonitor` state: `current_`, `previous_`, `first_reading_`,
`initialized_`. -/
structure PerfMonitorState where
  current : PerfCounters
  previous : PerfCounters
  first_reading : Bool
  initialized : Bool
  deriving Repr, DecidableEq

namespace PerfMonitor

/-- `PerfMonitor::initialize` (Linux path): already-initialized is a
no-op returning `true`; otherwise the 8 `setupPerfEvent` calls are made in
order and the first failure makes `initialize` return `false` with
`initialized_` still false; only if all succeed does it set `initialized_`
and return `true`. -/
def initializeFn (opens : List Bool) (s : PerfMonitorState) :
    Bool × PerfMonitorState :=
  if s.initialized then (true, s)
  else if false ∈ opens then (false, s)
  else (true, { s with initialized := true })

/-- The counter-reading loop of `PerfMonitor::update`: each of the 8 open
counters overwrites its raw field of `current_`; derived fields are
untouched. -/
def readCounters (c : PerfCounters) (r : PerfRaw) : PerfCounters :=
  { c with
    cpu_cycles := r.cpu_cycles, instructions := r.instructions,
    cache_references := r.cache_references, cache_misses := r.cache_misses,
    branch_instructions := r.branch_instructions,
    branch_misses := r.branch_misses,
    context_switches := r.context_switches, page_faults := r.page_faults }

/-- `PerfMonitor::calculateMetrics`: all deltas are `unsigned long long`
subtractions (wrapping); IPC, cache-hit rate and branch-miss rate each carry
a zero-denominator guard that yields `0.0`; the cache-hit numerator
`cache_refs_delta - cache_misses_delta` is again a wrapping unsigned
subtraction. -/
def calculateMetrics (previous c : PerfCounters) : PerfCounters :=
  let cycles_delta := usub c.cpu_cycles previous.cpu_cycles
  let instructions_delta := usub c.instructions previous.instructions
  let cache_refs_delta := usub c.cache_references previous.cache_references
  let cache_misses_delta := usub c.cache_misses previous.cache_misses
  let branch_inst_delta :=
    usub c.branch_instructions previous.branch_instructions
  let branch_miss_delta := usub c.branch_misses previous.branch_misses
  { c with
    ipc := if 0 < cycles_delta
      then (instructions_delta : ℚ) / cycles_delta else 0,
    cache_hit_rate := if 0 < cache_refs_delta
      then 100 * (usub cache_refs_delta cache_misses_delta : ℚ) / cache_refs_delta
      else 0,
    branch_miss_rate := if 0 < branch_inst_delta
      then 100 * (branch_miss_delta : ℚ) / branch_inst_delta else 0,
    context_switch_rate :=
      (usub c.context_switches previous.context_switches : ℚ),
    page_fault_rate := (usub c.page_faults previous.page_faults : ℚ) }

/-- `PerfMonitor::update` (Linux path): run `initialize()` when not yet
initialized and return `false` on its failure; otherwise save `previous_`,
read all 8 counters into `current_`, and derive metrics unless this is the
first reading. -/
def update (opens : List Bool) (r : PerfRaw) (s : PerfMonitorState) :
    Bool × PerfMonitorState :=
  let ini := initializeFn opens s
  if !ini.1 then (false, ini.2)
  else
    let s1 := ini.2
    let previous := s1.current
    let current := readCounters s1.current r
    if s1.first_reading then
      (true, { s1 with current := current, previous := previous,
                       first_reading := false })
    else
      (true, { s1 with current := calculateMetrics previous current,
                       previous := previous })

end PerfMonitor

/-- A `PerfCounters` with every field zero. -/
def perfZero : PerfCounters := ⟨0, 0, 0, 0, 0, 0, 0, 0, 0, 0, 0, 0, 0⟩

/-- The freshly constructed `PerfMonitor`: not initialized, first reading
pending. -/
def perfInit0 : PerfMonitorState :=
  { current := perfZero, previous := perfZero,
    first_reading := true, initialized := false }

/-- An all-zero counter reading. -/
def perfRawZero : PerfRaw := ⟨0, 0, 0, 0, 0, 0, 0, 0⟩

/-- Open results where the very first counter (CPU cycles) fails to open. -/
def opensFirstFails : List Bool :=
  [false, true, true, true, true, true, true, true]

/-- Open results where the last counter (page faults) fails to open. -/
def opensLastFails : List Bool :=
  [true, true, true, true, true, true, true, false]

/-- Open results where all 8 counters open. -/
def opensAllOk : List Bool :=
  [true, true, true, true, true, true, true, true]

/-- C6 fails on the code: on the Linux path, failure to open even one of the
8 counters makes `initialize()` return `false` (leaving the sampler
uninitialized), and every subsequent `update()` re-runs `initialize()` and
returns `false` — the sampler as a whole fails rather than degrading to a
counters-unavailable mode (that mode exists only in the non-Linux build). -/
theorem C6_counterexample :
    (PerfMonitor.initializeFn opensFirstFails perfInit0).1 = false ∧
    (PerfMonitor.initializeFn opensFirstFails perfInit0).2.initialized = false ∧
    (PerfMonitor.update opensFirstFails perfRawZero perfInit0).1 = false ∧
    (PerfMonitor.update opensFirstFails perfRawZero perfInit0).2 = perfInit0 := by
  refine ⟨by decide, by decide, by decide, by decide⟩

/-- C6 (amended): for an uninitialized sampler, if any of the 8 counter
opens fails then `initialize()` returns `false` with the state unchanged and
`update()` returns `false` with the state unchanged (the sampler's whole
metric surface reports failure, but nothing crashes and the state is not
corrupted); if all 8 opens succeed, `initialize()` returns `true` and marks
the sampler initialized. -/
theorem C6_amended (opens : List Bool) (s : PerfMonitorState) (r : PerfRaw)
    (hs : s.initialized = false) :
    (false ∈ opens →
      (PerfMonitor.initializeFn opens s).1 = false ∧
      (PerfMonitor.initializeFn opens s).2 = s ∧
      (PerfMonitor.update opens r s).1 = false ∧
      (PerfMonitor.update opens r s).2 = s) ∧
    (false ∉ opens →
      (PerfMonitor.initializeFn opens s).1 = true ∧
      (PerfMonitor.initializeFn opens s).2.initialized = true) := by
  constructor
  · intro h
    refine ⟨?_, ?_, ?_, ?_⟩ <;>
      simp [PerfMonitor.initializeFn, PerfMonitor.update, hs, h]
  · intro h
    constructor <;> simp [PerfMonitor.initializeFn, hs, h]

/-- C6 amended, at concrete inputs: the last counter failing to open sinks
`initialize()`/`update()`, while all-successful opens initialize the
sampler. -/
theorem C6_amended_witness :
    ((PerfMonitor.initializeFn opensLastFails perfInit0).1 = false ∧
      (PerfMonitor.initializeFn opensLastFails perfInit0).2 = perfInit0 ∧
      (PerfMonitor.update opensLastFails perfRawZero perfInit0).1 = false ∧
      (PerfMonitor.update opensLastFails perfRawZero perfInit0).2 = perfInit0) ∧
    ((PerfMonitor.initializeFn opensAllOk perfInit0).1 = true ∧
      (PerfMonitor.initializeFn opensAllOk perfInit0).2.initialized = true) :=
  ⟨(C6_amended opensLastFails perfInit0 perfRawZero rfl).1 (by decide),
   (C6_amended opensAllOk perfInit0 perfRawZero rfl).2 (by decide)⟩

/-! ## NumaMonitor (src/src/NumaMonitor.cpp, src/include/NumaMonitor.h)

The Linux build is modelled.  `numa_nodes_` is a `std::map<int, NumaNode>`
(association list keyed by node id); `current_vmstat_`/`previous_vmstat_`
hold the systemwide `/proc/vmstat` counters. -/

structure NumaNode where
  node_id : Int
  mem_total : Nat
  mem_free : Nat
  mem_used : Nat
  usage_percent : ℚ
  cpu_cores : List Int
  is_local : Bool
  deriving Repr, DecidableEq

structure VmstatCounters where
  pgfault : Nat
  pgmajfault : Nat
  pgpgin : Nat
  pgpgout : Nat
  pswpin : Nat
  pswpout : Nat
  pgsteal : Nat
  pgscan_kswapd : Nat
  pgscan_direct : Nat
  nr_dirty : Nat
  nr_writeback : Nat
  nr_unstable : Nat
  nr_slab_reclaimable : Nat
  nr_slab_unreclaimable : Nat
  page_fault_rate : ℚ
  major_fault_rate : ℚ
  swap_rate : ℚ
  memory_pressure : ℚ
  is_swapping : Bool
  is_memory_pressured : Bool
  deriving Repr, DecidableEq

/-- The numeric fields `NumaMonitor::parseVmstat` extracts from
`/proc/vmstat`. -/
structure VmstatRaw where
  pgfault : Nat
  pgmajfault : Nat
  pgpgin : Nat
  pgpgout : Nat
  pswpin : Nat
  pswpout : Nat
  pgsteal : Nat
  pgscan_kswapd : Nat
  pgscan_direct : Nat
  nr_dirty : Nat
  nr_writeback : Nat
  nr_unstable : Nat
  nr_slab_reclaimable : Nat
  nr_slab_unreclaimable : Nat
  deriving Repr, DecidableEq

/-- `NumaMonitor` state. -/
structure NumaMonitorState where
  numa_nodes : List (Int × NumaNode)
  current_vmstat : VmstatCounters
  previous_vmstat : VmstatCounters
  first_reading : Bool
  deriving Repr, DecidableEq

namespace NumaMonitor

/-- `NumaMonitor::parseVmstat` (Linux path): overwrites the raw counters of
`current_vmstat_`; derived fields are untouched. -/
def parseVmstat (c : VmstatCounters) (r : VmstatRaw) : VmstatCounters :=
  { c with
    pgfault := r.pgfault, pgmajfault := r.pgmajfault, pgpgin := r.pgpgin,
    pgpgout := r.pgpgout, pswpin := r.pswpin, pswpout := r.pswpout,
    pgsteal := r.pgsteal, pgscan_kswapd := r.pgscan_kswapd,
    pgscan_direct := r.pgscan_direct, nr_dirty := r.nr_dirty,
    nr_writeback := r.nr_writeback, nr_unstable := r.nr_unstable,
    nr_slab_reclaimable := r.nr_slab_reclaimable,
    nr_slab_unreclaimable := r.nr_slab_unreclaimable }

/-- Memory part of `NumaMonitor::parseNumaNode`: when the node's meminfo
source opens, update `mem_total`/`mem_free`, set
`mem_used = mem_total - mem_free` (unsigned, wrapping) and, guarded on
`mem_total > 0`, the usage percentage.  (The cpulist part only appends to
the reporting-only `cpu_cores` vector and is not modelled.) -/
def parseNumaNode (n : NumaNode) (reading : Option (Nat × Nat)) : NumaNode :=
  match reading with
  | none => n
  | some (t, f) =>
    let mem_used := usub t f
    { n with
      mem_total := t, mem_free := f, mem_used := mem_used,
      usage_percent :=
        if 0 < t then 100 * (mem_used : ℚ) / t else n.usage_percent }

/-- `NumaMonitor::calculateMemoryPressure`: rates are wrapping unsigned
deltas; the pressure score accumulates the five fixed contributions in
order (dirty pages, writeback, scan delta, major faults, swap activity);
`is_memory_pressured` is `score > 50.0`; `is_swapping` is
`swap_in_delta > 0 || swap_out_delta > 0`. -/
def calculateMemoryPressure (previous c : VmstatCounters) : VmstatCounters :=
  let pgfault_delta := usub c.pgfault previous.pgfault
  let pgmajfault_delta := usub c.pgmajfault previous.pgmajfault
  let swap_in_delta := usub c.pswpin previous.pswpin
  let swap_out_delta := usub c.pswpout previous.pswpout
  let is_swapping := decide (0 < swap_in_delta) || decide (0 < swap_out_delta)
  let scan_delta :=
    (usub c.pgscan_kswapd previous.pgscan_kswapd +
      usub c.pgscan_direct previous.pgscan_direct) % W
  let score1 : ℚ := if 1000 < c.nr_dirty then 0 + 20 else 0
  let score2 : ℚ := if 500 < c.nr_writeback then score1 + 15 else score1
  let score3 : ℚ := if 1000 < scan_delta then score2 + 25 else score2
  let score4 : ℚ := if 10 < pgmajfault_delta then score3 + 30 else score3
  let pressure_score : ℚ := if is_swapping then score4 + 40 else score4
  { c with
    page_fault_rate := (pgfault_delta : ℚ),
    major_fault_rate := (pgmajfault_delta : ℚ),
    swap_rate := ((swap_in_delta + swap_out_delta) % W : ℚ),
    is_swapping := is_swapping,
    memory_pressure := pressure_score,
    is_memory_pressured := decide ((50 : ℚ) < pressure_score) }

/-- `NumaMonitor::update`: save `previous_vmstat_`, re-parse `/proc/vmstat`
into `current_vmstat_`, refresh every discovered node, then derive the
pressure metrics unless this is the first reading (`detectBottlenecks` only
prints).  `nodeR` abstracts each node's meminfo source (`none` = file does
not open). -/
def update (r : VmstatRaw) (nodeR : Int → Option (Nat × Nat))
    (s : NumaMonitorState) : NumaMonitorState :=
  let previous_vmstat := s.current_vmstat
  let current_vmstat := parseVmstat s.current_vmstat r
  let numa_nodes := s.numa_nodes.map fun e => (e.1, parseNumaNode e.2 (nodeR e.1))
  if s.first_reading then
    { numa_nodes := numa_nodes, current_vmstat := current_vmstat,
      previous_vmstat := previous_vmstat, first_reading := false }
  else
    { numa_nodes := numa_nodes,
      current_vmstat := calculateMemoryPressure previous_vmstat current_vmstat,
      previous_vmstat := previous_vmstat, first_reading := false }

/-- `NumaMonitor::getTotalMemoryUsage`: one loop accumulating
`total_usage += usage_percent` and `node_count++` over `numa_nodes_`,
then `total_usage / node_count` when any node exists, else `0.0`. -/
def getTotalMemoryUsage (nodes : List (Int × NumaNode)) : ℚ :=
  let acc :=
    nodes.foldl (fun a e => (a.1 + e.2.usage_percent, a.2 + 1)) ((0 : ℚ), (0 : Nat))
  if 0 < acc.2 then acc.1 / acc.2 else 0

end NumaMonitor

/-- C9: after any non-first `update()`, the pressure score equals the sum of
exactly the five fixed contributions (+20 for dirty > 1000, +15 for
writeback > 500, +25 for combined scan delta > 1000, +30 for major-fault
delta > 10, +40 for any swap activity); `is_memory_pressured` iff the score
exceeds 50; `is_swapping` iff either swap delta is positive.  The deltas are
the code's wrapping unsigned deltas against the previous vmstat snapshot. -/
theorem C9_pressure_score (s : NumaMonitorState) (r : VmstatRaw)
    (nodeR : Int → Option (Nat × Nat)) (h : s.first_reading = false) :
    (NumaMonitor.update r nodeR s).current_vmstat.memory_pressure =
      (if 1000 < r.nr_dirty then (20 : ℚ) else 0) +
      (if 500 < r.nr_writeback then (15 : ℚ) else 0) +
      (if 1000 < (usub r.pgscan_kswapd s.current_vmstat.pgscan_kswapd +
          usub r.pgscan_direct s.current_vmstat.pgscan_direct) % W
        then (25 : ℚ) else 0) +
      (if 10 < usub r.pgmajfault s.current_vmstat.pgmajfault
        then (30 : ℚ) else 0) +
      (if 0 < usub r.pswpin s.current_vmstat.pswpin ∨
          0 < usub r.pswpout s.current_vmstat.pswpout
        then (40 : ℚ) else 0) ∧
    ((NumaMonitor.update r nodeR s).current_vmstat.is_memory_pressured = true ↔
      50 < (NumaMonitor.update r nodeR s).current_vmstat.memory_pressure) ∧
    ((NumaMonitor.update r nodeR s).current_vmstat.is_swapping = true ↔
      (0 < usub r.pswpin s.current_vmstat.pswpin ∨
        0 < usub r.pswpout s.current_vmstat.pswpout)) := by
  unfold NumaMonitor.update
  rw [h]
  simp only [Bool.false_eq_true, if_false]
  unfold NumaMonitor.calculateMemoryPressure NumaMonitor.parseVmstat
  by_cases h1 : 1000 < r.nr_dirty <;>
    by_cases h2 : 500 < r.nr_writeback <;>
    by_cases h3 : 1000 < (usub r.pgscan_kswapd s.current_vmstat.pgscan_kswapd +
      usub r.pgscan_direct s.current_vmstat.pgscan_direct) % W <;>
    by_cases h4 : 10 < usub r.pgmajfault s.current_vmstat.pgmajfault <;>
    by_cases h5 : 0 < usub r.pswpin s.current_vmstat.pswpin ∨
      0 < usub r.pswpout s.current_vmstat.pswpout <;>
    simp [h1, h2, h3, h4, h5]

/-- A `VmstatCounters` with every field zero / false. -/
def vmstatZero : VmstatCounters :=
  ⟨0, 0, 0, 0, 0, 0, 0, 0, 0, 0, 0, 0, 0, 0, 0, 0, 0, 0, false, false⟩

/-- A `NumaMonitor` state past its first reading, all counters zero. -/
def numaPastFirst : NumaMonitorState :=
  { numa_nodes := [], current_vmstat := vmstatZero,
    previous_vmstat := vmstatZero, first_reading := false }

/-- A vmstat reading with 1200 dirty pages and no other activity. -/
def vmstatRawDirty1200 : VmstatRaw :=
  ⟨0, 0, 0, 0, 0, 0, 0, 0, 0, 1200, 0, 0, 0, 0⟩

/-- C9 at the spec's own instance: dirty = 1200 with everything else quiet
gives score exactly 20 and no pressure flag. -/
theorem C9_pressure_score_witness :
    (NumaMonitor.update vmstatRawDirty1200 (fun _ => none)
      numaPastFirst).current_vmstat.memory_pressure = 20 ∧
    (NumaMonitor.update vmstatRawDirty1200 (fun _ => none)
      numaPastFirst).current_vmstat.is_memory_pressured = false := by
  obtain ⟨h1, h2, h3⟩ :=
    C9_pressure_score numaPastFirst vmstatRawDirty1200 (fun _ => none) rfl
  have hscore : (NumaMonitor.update vmstatRawDirty1200 (fun _ => none)
      numaPastFirst).current_vmstat.memory_pressure = 20 := by
    rw [h1]
    norm_num [vmstatRawDirty1200, numaPastFirst, vmstatZero, usub, W]
  refine ⟨hscore, ?_⟩
  cases hx : (NumaMonitor.update vmstatRawDirty1200 (fun _ => none)
      numaPastFirst).current_vmstat.is_memory_pressured with
  | false => rfl
  | true =>
    have := h2.mp hx
    rw [hscore] at this
    exact absurd this (by norm_num)

/-- C10: `getTotalMemoryUsage` returns the arithmetic mean of the per-node
`usage_percent` values over all discovered NUMA nodes (sum divided by node
count — not the sum, not a systemwide total), and `0.0` when no nodes were
discovered. -/
theorem C10_total_memory_usage (nodes : List (Int × NumaNode)) :
    NumaMonitor.getTotalMemoryUsage nodes =
      if nodes = [] then 0
      else (nodes.map fun e => e.2.usage_percent).sum / nodes.length := by
  have hfold : ∀ (l : List (Int × NumaNode)) (a : ℚ) (n : Nat),
      l.foldl (fun a e => (a.1 + e.2.usage_percent, a.2 + 1)) (a, n) =
      (a + (l.map fun e => e.2.usage_percent).sum, n + l.length) := by
    intro l
    induction l with
    | nil => intro a n; simp
    | cons x xs ih =>
      intro a n
      simp only [List.foldl_cons, List.map_cons, List.sum_cons, List.length_cons]
      rw [ih]
      simp only [Prod.mk.injEq]
      constructor
      · ring
      · omega
  unfold NumaMonitor.getTotalMemoryUsage
  cases nodes with
  | nil => simp
  | cons x xs =>
    rw [hfold]
    simp [List.length_cons]

/-! ## ProcessMonitor (src/src/ProcessMonitor.cpp, src/include/ProcessMonitor.h)

The Linux build is modelled.  `process_stats_` and `previous_stats_` are
`std::map<pid_t, ProcessStats>` (association lists keyed by pid —
non-negative `/proc` entries, modelled as `Nat`).  The per-tick inputs are
abstracted as: the list of discovered live pids, one boolean per pid for
each of the three parses (a failed parse leaves the map untouched for that
parse, as the C++ returns before touching `process_stats_[pid]` on an
unopenable file / short stat line), and the raw numeric fields each parse
would extract. -/

structure ProcessStats where
  pid : Nat
  comm : String
  state : Char
  utime : Nat
  stime : Nat
  cutime : Nat
  cstime : Nat
  num_threads : Nat
  vsize : Nat
  rss : Nat
  minflt : Nat
  majflt : Nat
  cminflt : Nat
  cmajflt : Nat
  voluntary_ctxt_switches : Nat
  nonvoluntary_ctxt_switches : Nat
  rchar : Nat
  wchar : Nat
  syscr : Nat
  syscw : Nat
  read_bytes : Nat
  write_bytes : Nat
  cpu_usage_percent : ℚ
  memory_usage_mb : ℚ
  cache_hit_rate : ℚ
  io_efficiency : ℚ
  cpu_efficiency : ℚ
  context_switch_rate : ℚ
  page_fault_rate : ℚ
  is_cpu_intensive : Bool
  is_memory_intensive : Bool
  is_io_intensive : Bool
  is_context_switching_heavy : Bool
  is_page_faulting_heavy : Bool
  deriving Repr, DecidableEq

/-- The value-initialised `ProcessStats` that `std::map::operator[]` creates
for an absent pid (all scalars zero). -/
def zeroProcessStats : ProcessStats :=
  ⟨0, "", ' ', 0, 0, 0, 0, 0, 0, 0, 0, 0, 0, 0, 0, 0, 0, 0, 0, 0, 0, 0,
   0, 0, 0, 0, 0, 0, 0, false, false, false, false, false⟩

/-- Raw per-pid fields the three parses would extract this tick. -/
structure ProcRaw where
  comm : String
  state : Char
  utime : Nat
  stime : Nat
  cutime : Nat
  cstime : Nat
  num_threads : Nat
  vsize : Nat
  rss : Nat
  minflt : Nat
  majflt : Nat
  cminflt : Nat
  cmajflt : Nat
  voluntary_ctxt_switches : Nat
  nonvoluntary_ctxt_switches : Nat
  rchar : Nat
  wchar : Nat
  syscr : Nat
  syscw : Nat
  read_bytes : Nat
  write_bytes : Nat
  deriving Repr, DecidableEq

/-- `ProcessMonitor` state: `process_stats_`, `previous_stats_`,
`first_reading_`. -/
structure ProcessMonitorState where
  process_stats : List (Nat × ProcessStats)
  previous_stats : List (Nat × ProcessStats)
  first_reading : Bool
  deriving Repr, DecidableEq

namespace ProcessMonitor

/-- `ProcessMonitor::parseProcessStat` (successful case): writes the
`/proc/<pid>/stat` fields through `process_stats_[pid]` (value-initialised
if absent); derived fields untouched. -/
def parseProcessStat (m : List (Nat × ProcessStats)) (pid : Nat)
    (r : ProcRaw) : List (Nat × ProcessStats) :=
  let old := (alLookup m pid).getD zeroProcessStats
  alInsert m pid
    { old with
      pid := pid, comm := r.comm, state := r.state, utime := r.utime,
      stime := r.stime, cutime := r.cutime, cstime := r.cstime,
      num_threads := r.num_threads, vsize := r.vsize, rss := r.rss,
      minflt := r.minflt, majflt := r.majflt, cminflt := r.cminflt,
      cmajflt := r.cmajflt }

/-- `ProcessMonitor::parseProcessStatus` (successful case): writes the two
context-switch counters through `process_stats_[pid]`. -/
def parseProcessStatus (m : List (Nat × ProcessStats)) (pid : Nat)
    (r : ProcRaw) : List (Nat × ProcessStats) :=
  let old := (alLookup m pid).getD zeroProcessStats
  alInsert m pid
    { old with
      voluntary_ctxt_switches := r.voluntary_ctxt_switches,
      nonvoluntary_ctxt_switches := r.nonvoluntary_ctxt_switches }

/-- `ProcessMonitor::parseProcessIO` (successful case): writes the six I/O
counters through `process_stats_[pid]`. -/
def parseProcessIo (m : List (Nat × ProcessStats)) (pid : Nat)
    (r : ProcRaw) : List (Nat × ProcessStats) :=
  let old := (alLookup m pid).getD zeroProcessStats
  alInsert m pid
    { old with
      rchar := r.rchar, wchar := r.wchar, syscr := r.syscr,
      syscw := r.syscw, read_bytes := r.read_bytes,
      write_bytes := r.write_bytes }

/-- `ProcessMonitor::calculateProcessMetrics`: early return on the
sampler-level `first_reading_` only; otherwise `previous_stats_[pid]` is
read through `operator[]` — for a pid with no previous-tick snapshot this
value-initialises (all-zero) and the metrics are computed against that zero
record.  All deltas are wrapping unsigned subtractions;
`cpu_usage_percent = total_time / 100`; `memory_usage_mb = rss * 4 / 1024`;
cache-hit / io-efficiency / cpu-efficiency carry zero-denominator guards. -/
def calculateProcessMetrics (first_reading : Bool)
    (prev m : List (Nat × ProcessStats)) (pid : Nat) :
    List (Nat × ProcessStats) :=
  if first_reading then m
  else
    let c := (alLookup m pid).getD zeroProcessStats
    let previous := (alLookup prev pid).getD zeroProcessStats
    let total_time := (usub c.utime previous.utime +
      usub c.stime previous.stime) % W
    let rchar_delta := usub c.rchar previous.rchar
    let read_bytes_delta := usub c.read_bytes previous.read_bytes
    let syscr_delta := usub c.syscr previous.syscr
    let total_cpu := (c.utime + c.stime) % W
    alInsert m pid
      { c with
        cpu_usage_percent := (total_time : ℚ) / 100,
        memory_usage_mb := (c.rss : ℚ) * 4 / 1024,
        cache_hit_rate := if 0 < rchar_delta
          then 100 * (usub rchar_delta read_bytes_delta : ℚ) / rchar_delta
          else 0,
        io_efficiency := if 0 < syscr_delta
          then (read_bytes_delta : ℚ) / syscr_delta else 0,
        cpu_efficiency := if 0 < total_cpu
          then 100 * (c.utime : ℚ) / total_cpu else 0,
        context_switch_rate :=
          ((usub c.voluntary_ctxt_switches previous.voluntary_ctxt_switches +
            usub c.nonvoluntary_ctxt_switches
              previous.nonvoluntary_ctxt_switches) % W : ℚ),
        page_fault_rate :=
          ((usub c.minflt previous.minflt +
            usub c.majflt previous.majflt) % W : ℚ) }

/-- `ProcessMonitor::detectProcessBottlenecks`: fixed-threshold flags from
the (possibly just computed) metrics of `process_stats_[pid]`. -/
def detectProcessBottlenecks (m : List (Nat × ProcessStats)) (pid : Nat) :
    List (Nat × ProcessStats) :=
  let s := (alLookup m pid).getD zeroProcessStats
  alInsert m pid
    { s with
      is_cpu_intensive := decide (50 < s.cpu_usage_percent),
      is_memory_intensive := decide (1000 < s.memory_usage_mb),
      is_io_intensive := decide (1000 < s.io_efficiency),
      is_context_switching_heavy := decide (1000 < s.context_switch_rate),
      is_page_faulting_heavy := decide (100 < s.page_fault_rate) }

/-- The body of the per-pid loop of `ProcessMonitor::update`:
`parseProcessStat(pid) && parseProcessStatus(pid) && parseProcessIO(pid)`
(short-circuit: a failed parse stops the chain, keeping the map changes of
the parses that already succeeded), then metrics and bottleneck flags only
when all three parses succeeded. -/
def updatePid (first_reading : Bool) (prev : List (Nat × ProcessStats))
    (okStat okStatus okIo : Nat → Bool) (raw : Nat → ProcRaw)
    (m : List (Nat × ProcessStats)) (pid : Nat) :
    List (Nat × ProcessStats) :=
  if okStat pid then
    let m1 := parseProcessStat m pid (raw pid)
    if okStatus pid then
      let m2 := parseProcessStatus m1 pid (raw pid)
      if okIo pid then
        let m3 := parseProcessIo m2 pid (raw pid)
        detectProcessBottlenecks
          (calculateProcessMetrics first_reading prev m3 pid) pid
      else m2
    else m1
  else m

/-- `ProcessMonitor::update`: save `previous_stats_`, walk the discovered
pids (each checked alive, i.e. in the discovered set), then erase every
tracked pid that is no longer alive; finally clear `first_reading_`. -/
def update (alive : List Nat) (okStat okStatus okIo : Nat → Bool)
    (raw : Nat → ProcRaw) (s : ProcessMonitorState) : ProcessMonitorState :=
  let previous_stats := s.process_stats
  let stats1 := alive.foldl
    (updatePid s.first_reading previous_stats okStat okStatus okIo raw)
    s.process_stats
  let stats2 := stats1.filter fun e => decide (e.1 ∈ alive)
  { process_stats := stats2, previous_stats := previous_stats,
    first_reading := false }

end ProcessMonitor

/-- A freshly constructed `ProcessMonitor`: empty maps, first reading
pending. -/
def procInit0 : ProcessMonitorState :=
  { process_stats := [], previous_stats := [], first_reading := true }

/-- All parses succeed for every pid. -/
def okAll : Nat → Bool := fun _ => true

/-- A quiet process: 100 user + 50 system jiffies. -/
def procRawQuiet : ProcRaw :=
  ⟨"idleproc", 'S', 100, 50, 0, 0, 1, 4096, 10, 3, 1, 0, 0, 2, 1,
   100, 50, 1, 1, 10, 5⟩

/-- A long-running process first discovered on the second tick: 3000 user +
2000 system cumulative jiffies, 10 read syscalls for 5000 bytes. -/
def procRawBusy : ProcRaw :=
  ⟨"busyproc", 'R', 3000, 2000, 0, 0, 4, 8192, 100, 20, 2, 0, 0, 40, 8,
   9000, 100, 10, 2, 5000, 40⟩

/-- Per-pid raw readings: pid 2 is the busy newcomer. -/
def procRawOf : Nat → ProcRaw := fun pid =>
  if pid = 2 then procRawBusy else procRawQuiet

/-- Tick 1: only pid 1 exists. -/
def procTick1 : ProcessMonitorState :=
  ProcessMonitor.update [1] okAll okAll okAll procRawOf procInit0

/-- Tick 2: pid 2 appears for the first time. -/
def procTick2 : ProcessMonitorState :=
  ProcessMonitor.update [1, 2] okAll okAll okAll procRawOf procTick1

/-- C7 fails on the code: pid 2 has no snapshot after tick 1, yet on its
first appearance in tick 2 `calculateProcessMetrics` runs anyway — C++
`previous_stats_[pid]` value-initialises an all-zero previous record — and
populates the derived metrics from the cumulative counters:
`cpu_usage_percent = (3000 + 2000) / 100 = 50` and
`io_efficiency = 5000 / 10 = 500`, instead of computing no rates. -/
theorem C7_first_appearance_rates :
    alLookup procTick1.process_stats 2 = none ∧
    ((alLookup procTick2.process_stats 2).getD
      zeroProcessStats).cpu_usage_percent = 50 ∧
    ((alLookup procTick2.process_stats 2).getD
      zeroProcessStats).io_efficiency = 500 := by
  refine ⟨by decide, ?_, ?_⟩ <;>
    norm_num [procTick2, procTick1, procInit0, procRawOf, procRawBusy,
      procRawQuiet, okAll, ProcessMonitor.update, ProcessMonitor.updatePid,
      ProcessMonitor.parseProcessStat, ProcessMonitor.parseProcessStatus,
      ProcessMonitor.parseProcessIo, ProcessMonitor.calculateProcessMetrics,
      ProcessMonitor.detectProcessBottlenecks, alInsert, alLookup,
      zeroProcessStats, usub, W]

/-- Keys are never lost by the per-pid loop body of
`ProcessMonitor::update`. -/
theorem keys_updatePid {m : List (Nat × ProcessStats)} {k : Nat}
    (fr : Bool) (prev : List (Nat × ProcessStats))
    (okStat okStatus okIo : Nat → Bool) (raw : Nat → ProcRaw) (pid : Nat)
    (h : k ∈ m.map Prod.fst) :
    k ∈ (ProcessMonitor.updatePid fr prev okStat okStatus okIo raw m
      pid).map Prod.fst := by
  unfold ProcessMonitor.updatePid ProcessMonitor.parseProcessStat
    ProcessMonitor.parseProcessStatus ProcessMonitor.parseProcessIo
    ProcessMonitor.calculateProcessMetrics
    ProcessMonitor.detectProcessBottlenecks
  by_cases h1 : okStat pid <;> by_cases h2 : okStatus pid <;>
    by_cases h3 : okIo pid <;> by_cases h4 : fr <;>
    simp only [h1, h2, h3, h4, if_pos, if_neg, if_true, if_false,
      Bool.false_eq_true, ite_true, ite_false] <;>
    first
      | exact h
      | exact alInsert_keys _ _ h
      | exact alInsert_keys _ _ (alInsert_keys _ _ h)
      | exact alInsert_keys _ _ (alInsert_keys _ _ (alInsert_keys _ _ h))
      | exact alInsert_keys _ _ (alInsert_keys _ _ (alInsert_keys _ _
          (alInsert_keys _ _ h)))
      | exact alInsert_keys _ _ (alInsert_keys _ _ (alInsert_keys _ _
          (alInsert_keys _ _ (alInsert_keys _ _ h))))

/-- Keys are never lost by the whole per-tick pid walk. -/
theorem keys_foldl_updatePid (alive : List Nat) (fr : Bool)
    (prev : List (Nat × ProcessStats)) (okStat okStatus okIo : Nat → Bool)
    (raw : Nat → ProcRaw) {m : List (Nat × ProcessStats)} {k : Nat}
    (h : k ∈ m.map Prod.fst) :
    k ∈ (alive.foldl
      (ProcessMonitor.updatePid fr prev okStat okStatus okIo raw)
      m).map Prod.fst := by
  induction alive generalizing m with
  | nil => simpa using h
  | cons p rest ih =>
    exact ih (keys_updatePid fr prev okStat okStatus okIo raw p h)

/-- C8: a pid that is alive this tick and already tracked stays in the
tracked map across `update()`; a pid not alive this tick is absent from the
tracked map after `update()` — removed entirely, exactly on the tick after
its disappearance and not before. -/
theorem C8_prune (s : ProcessMonitorState) (alive : List Nat)
    (okStat okStatus okIo : Nat → Bool) (raw : Nat → ProcRaw) (pid : Nat) :
    (pid ∉ alive →
      pid ∉ (ProcessMonitor.update alive okStat okStatus okIo raw
        s).process_stats.map Prod.fst) ∧
    (pid ∈ alive → pid ∈ s.process_stats.map Prod.fst →
      pid ∈ (ProcessMonitor.update alive okStat okStatus okIo raw
        s).process_stats.map Prod.fst) := by
  constructor
  · intro hdead hmem
    rcases List.mem_map.mp hmem with ⟨e, he, hfst⟩
    have := List.of_mem_filter he
    rw [hfst] at this
    exact hdead (by simpa using this)
  · intro halive htracked
    have h1 := keys_foldl_updatePid alive s.first_reading s.process_stats
      okStat okStatus okIo raw htracked
    rcases List.mem_map.mp h1 with ⟨e, he, hfst⟩
    refine List.mem_map.mpr ⟨e, List.mem_filter.mpr ⟨he, ?_⟩, hfst⟩
    rw [hfst]
    simpa using halive

/-- A monitor tracking pid 7 past its first reading. -/
def procTracking7 : ProcessMonitorState :=
  { process_stats := [(7, zeroProcessStats)], previous_stats := [],
    first_reading := false }

/-- C8 at concrete inputs: pid 7 stays tracked across a tick in which it is
alive, and is gone from the map after the tick in which it is absent. -/
theorem C8_prune_witness :
    (7 ∉ (ProcessMonitor.update [] okAll okAll okAll procRawOf
      procTracking7).process_stats.map Prod.fst) ∧
    (7 ∈ (ProcessMonitor.update [7] okAll okAll okAll procRawOf
      procTracking7).process_stats.map Prod.fst) :=
  ⟨(C8_prune procTracking7 [] okAll okAll okAll procRawOf 7).1 (by decide),
   (C8_prune procTracking7 [7] okAll okAll okAll procRawOf 7).2 (by decide)
     (by decide)⟩

/-! ## First-reading suppression (C2)

Projections collecting each sampler's delta-derived rate/percentage fields,
and per-sampler lemmas: the first `update()` leaves them untouched, the
second (with changed counters) computes them. -/

/-- The delta-derived per-device rate fields of a `DiskStats`. -/
def diskRates (d : DiskStats) : List ℚ :=
  [d.read_iops, d.write_iops, d.total_iops, d.read_mbps, d.write_mbps,
   d.total_mbps, d.avg_latency, d.queue_depth]

/-- The derived rate/score fields of a `VmstatCounters`. -/
def vmstatDerived (v : VmstatCounters) : List ℚ :=
  [v.page_fault_rate, v.major_fault_rate, v.swap_rate, v.memory_pressure]

/-- The derived boolean flags of a `VmstatCounters`. -/
def vmstatFlags (v : VmstatCounters) : List Bool :=
  [v.is_swapping, v.is_memory_pressured]

/-- The derived metric fields of a `PerfCounters`. -/
def perfDerived (p : PerfCounters) : List ℚ :=
  [p.ipc, p.cache_hit_rate, p.branch_miss_rate, p.context_switch_rate,
   p.page_fault_rate]

/-- The derived metric fields of a `ProcessStats`. -/
def procDerived (p : ProcessStats) : List ℚ :=
  [p.cpu_usage_percent, p.memory_usage_mb, p.cache_hit_rate,
   p.io_efficiency, p.cpu_efficiency, p.context_switch_rate,
   p.page_fault_rate]

/-- The derived boolean flags of a `ProcessStats`. -/
def procFlags (p : ProcessStats) : List Bool :=
  [p.is_cpu_intensive, p.is_memory_intensive, p.is_io_intensive,
   p.is_context_switching_heavy, p.is_page_faulting_heavy]

/-- Componentwise `previous ≤ new reading` for the CPU counters. -/
def CpuLeRaw (p : CpuTimes) (r : CpuRaw) : Prop :=
  p.user ≤ r.user ∧ p.nice ≤ r.nice ∧ p.system ≤ r.system ∧
  p.idle ≤ r.idle ∧ p.iowait ≤ r.iowait ∧ p.irq ≤ r.irq ∧
  p.softirq ≤ r.softirq ∧ p.steal ≤ r.steal ∧ p.guest ≤ r.guest ∧
  p.guest_nice ≤ r.guest_nice

instance (p : CpuTimes) (r : CpuRaw) : Decidable (CpuLeRaw p r) := by
  unfold CpuLeRaw; infer_instance

/-- Each counter of a CPU reading fits an `unsigned long`. -/
def CpuRawBounded (r : CpuRaw) : Prop :=
  r.user < W ∧ r.nice < W ∧ r.system < W ∧ r.idle < W ∧ r.iowait < W ∧
  r.irq < W ∧ r.softirq < W ∧ r.steal < W ∧ r.guest < W ∧ r.guest_nice < W

instance (r : CpuRaw) : Decidable (CpuRawBounded r) := by
  unfold CpuRawBounded; infer_instance

/-- True total of the deltas between a snapshot and a newer reading. -/
def cpuDeltaRaw (p : CpuTimes) (r : CpuRaw) : Nat :=
  (r.user - p.user) + (r.nice - p.nice) + (r.system - p.system) +
  (r.idle - p.idle) + (r.iowait - p.iowait) + (r.irq - p.irq) +
  (r.softirq - p.softirq) + (r.steal - p.steal) + (r.guest - p.guest) +
  (r.guest_nice - p.guest_nice)

/-- First CPU `update()` call: no percentage field is touched. -/
theorem cpu_first_preserves (s : CpuMonitorState) (r : CpuRaw)
    (h : s.first_reading = true) :
    cpuPercents ((CpuMonitor.update s r).current) = cpuPercents s.current := by
  simp [CpuMonitor.update, h, CpuMonitor.parseProcStat, cpuPercents]

/-- Second CPU `update()` call with advanced counters: the user percentage
is computed as `100 * Δuser / Σdelta`. -/
theorem cpu_second_populates (s : CpuMonitorState) (r : CpuRaw)
    (h : s.first_reading = false) (hle : CpuLeRaw s.current r)
    (hb : CpuRawBounded r) (hpos : 0 < cpuDeltaRaw s.current r)
    (hlt : cpuDeltaRaw s.current r < W) :
    (CpuMonitor.update s r).current.user_percent =
      100 * ((r.user - s.current.user : Nat) : ℚ) / cpuDeltaRaw s.current r := by
  obtain ⟨l1, l2, l3, l4, l5, l6, l7, l8, l9, l10⟩ := hle
  obtain ⟨b1, b2, b3, b4, b5, b6, b7, b8, b9, b10⟩ := hb
  have e1 := usub_of_le l1 b1
  have e2 := usub_of_le l2 b2
  have e3 := usub_of_le l3 b3
  have e4 := usub_of_le l4 b4
  have e5 := usub_of_le l5 b5
  have e6 := usub_of_le l6 b6
  have e7 := usub_of_le l7 b7
  have e8 := usub_of_le l8 b8
  have e9 := usub_of_le l9 b9
  have e10 := usub_of_le l10 b10
  have hne : cpuDeltaRaw s.current r % W ≠ 0 := by
    rw [Nat.mod_eq_of_lt hlt]; omega
  unfold CpuMonitor.update
  simp only [h, Bool.false_eq_true, if_false]
  unfold CpuMonitor.calculatePercentages CpuMonitor.parseProcStat
  simp only
  rw [e1, e2, e3, e4, e5, e6, e7, e8, e9, e10]
  have hsum :
      (r.user - s.current.user) + (r.nice - s.current.nice) +
        (r.system - s.current.system) + (r.idle - s.current.idle) +
        (r.iowait - s.current.iowait) + (r.irq - s.current.irq) +
        (r.softirq - s.current.softirq) + (r.steal - s.current.steal) +
        (r.guest - s.current.guest) +
        (r.guest_nice - s.current.guest_nice) = cpuDeltaRaw s.current r := rfl
  rw [hsum, if_neg hne, Nat.mod_eq_of_lt hlt]

/-- Every entry produced by `parseDiskStats` is an untouched old entry or a
freshly built record. -/
theorem parseDiskStats_mem {devices : List String}
    {m : List (String × DiskStats)} {rows : List DiskRaw}
    {e : String × DiskStats}
    (h : e ∈ StorageMonitor.parseDiskStats devices m rows) :
    e ∈ m ∨ ∃ r, e.2 = StorageMonitor.freshStats r := by
  induction rows generalizing m with
  | nil => exact Or.inl h
  | cons r rest ih =>
    have h' : e ∈ StorageMonitor.parseDiskStats devices
        (if r.device_name ∈ devices then
          alInsert m r.device_name (StorageMonitor.freshStats r)
         else m) rest := by
      simpa [StorageMonitor.parseDiskStats, List.foldl_cons] using h
    rcases ih h' with hm | hf
    · by_cases hd : r.device_name ∈ devices
      · rw [if_pos hd] at hm
        rcases mem_alInsert hm with he | he
        · exact Or.inr ⟨r, by rw [he]⟩
        · exact Or.inl he
      · rw [if_neg hd] at hm
        exact Or.inl hm
    · exact Or.inr hf

/-- `detectHotDevices` only touches the hot flag: every entry keeps the rate
fields of some input entry. -/
theorem detectHotDevices_mem {m : List (String × DiskStats)}
    {e : String × DiskStats} (h : e ∈ StorageMonitor.detectHotDevices m) :
    ∃ e' ∈ m, diskRates e.2 = diskRates e'.2 := by
  unfold StorageMonitor.detectHotDevices at h
  by_cases hm : m.isEmpty
  · rw [if_pos hm] at h
    exact ⟨e, h, rfl⟩
  · rw [if_neg hm] at h
    rcases List.mem_map.mp h with ⟨e', he', hmap⟩
    refine ⟨e', he', ?_⟩
    by_cases hh : e'.1 ∈ StorageMonitor.hotNames m
    · simp [hh] at hmap
      rw [← hmap]
      rfl
    · simp [hh] at hmap
      rw [← hmap]

/-- First storage `update()` call (freshly constructed monitor): every
device entry carries only zero rate fields. -/
theorem storage_first_preserves (s : StorageMonitorState)
    (rows : List DiskRaw) (hm : s.disk_stats = [])
    (h : s.first_reading = true) :
    ∀ e ∈ (StorageMonitor.update s rows).disk_stats,
      diskRates e.2 = [0, 0, 0, 0, 0, 0, 0, 0] := by
  intro e he
  have he' : e ∈ StorageMonitor.detectHotDevices
      (StorageMonitor.parseDiskStats s.devices s.disk_stats rows) := by
    simpa [StorageMonitor.update, StorageMonitor.calculatePerformance, h]
      using he
  rcases detectHotDevices_mem he' with ⟨e', he'', hrates⟩
  rcases parseDiskStats_mem he'' with hold | ⟨r, hfresh⟩
  · rw [hm] at hold
    simp at hold
  · rw [hrates, hfresh]
    rfl

/-- Second storage `update()` call on a single-device monitor: the device's
entry is fully recomputed by `calcDevice` from the tick's deltas (and marked
hot, being the only device). -/
theorem storage_second_populates (s : StorageMonitorState) (d : String)
    (p : DiskStats) (row : DiskRaw) (hm : s.disk_stats = [(d, p)])
    (h : s.first_reading = false) (hd : row.device_name = d)
    (hdev : d ∈ s.devices) :
    (StorageMonitor.update s [row]).disk_stats =
      [(d, { StorageMonitor.calcDevice p (StorageMonitor.freshStats row) with
              is_hot_device := true })] ∧
    (StorageMonitor.calcDevice p (StorageMonitor.freshStats row)).total_iops =
      (((usub row.reads p.reads + usub row.writes p.writes) % W : Nat) : ℚ) := by
  subst hd
  constructor
  · simp [StorageMonitor.update, StorageMonitor.parseDiskStats, hm, h, hdev,
      alInsert, alLookup, StorageMonitor.calculatePerformance,
      StorageMonitor.detectHotDevices, StorageMonitor.hotNames,
      StorageMonitor.hotCount, StorageMonitor.sortedIops,
      List.insertionSort, List.orderedInsert]
  · simp [StorageMonitor.calcDevice, StorageMonitor.freshStats]

/-- First NUMA `update()` call: no derived vmstat field or flag changes. -/
theorem numa_first_preserves (s : NumaMonitorState) (r : VmstatRaw)
    (nodeR : Int → Option (Nat × Nat)) (h : s.first_reading = true) :
    vmstatDerived ((NumaMonitor.update r nodeR s).current_vmstat) =
      vmstatDerived s.current_vmstat ∧
    vmstatFlags ((NumaMonitor.update r nodeR s).current_vmstat) =
      vmstatFlags s.current_vmstat := by
  constructor <;>
    simp [NumaMonitor.update, h, NumaMonitor.parseVmstat, vmstatDerived,
      vmstatFlags]

/-- Second NUMA `update()` call: the fault rates are computed from the
tick's deltas. -/
theorem numa_second_populates (s : NumaMonitorState) (r : VmstatRaw)
    (nodeR : Int → Option (Nat × Nat)) (h : s.first_reading = false) :
    (NumaMonitor.update r nodeR s).current_vmstat.page_fault_rate =
      ((usub r.pgfault s.current_vmstat.pgfault : Nat) : ℚ) ∧
    (NumaMonitor.update r nodeR s).current_vmstat.major_fault_rate =
      ((usub r.pgmajfault s.current_vmstat.pgmajfault : Nat) : ℚ) := by
  constructor <;>
    simp [NumaMonitor.update, h, NumaMonitor.parseVmstat,
      NumaMonitor.calculateMemoryPressure]

/-- First perf `update()` call (initialized sampler): no derived metric
changes. -/
theorem perf_first_preserves (opens : List Bool) (r : PerfRaw)
    (s : PerfMonitorState) (hi : s.initialized = true)
    (h : s.first_reading = true) :
    perfDerived ((PerfMonitor.update opens r s).2.current) =
      perfDerived s.current := by
  simp [PerfMonitor.update, PerfMonitor.initializeFn, hi, h,
    PerfMonitor.readCounters, perfDerived]

/-- Second perf `update()` call with advancing cycle counter: IPC and the
context-switch rate are computed from the tick's deltas. -/
theorem perf_second_populates (opens : List Bool) (r : PerfRaw)
    (s : PerfMonitorState) (hi : s.initialized = true)
    (h : s.first_reading = false)
    (hc : 0 < usub r.cpu_cycles s.current.cpu_cycles) :
    (PerfMonitor.update opens r s).2.current.ipc =
      ((usub r.instructions s.current.instructions : Nat) : ℚ) /
        ((usub r.cpu_cycles s.current.cpu_cycles : Nat) : ℚ) ∧
    (PerfMonitor.update opens r s).2.current.context_switch_rate =
      ((usub r.context_switches s.current.context_switches : Nat) : ℚ) := by
  constructor <;>
    simp [PerfMonitor.update, PerfMonitor.initializeFn, hi, h,
      PerfMonitor.readCounters, PerfMonitor.calculateMetrics, hc]

/-- A `ProcessStats` whose derived metrics are all zero and flags all
clear. -/
def ProcNeutral (p : ProcessStats) : Prop :=
  procDerived p = [0, 0, 0, 0, 0, 0, 0] ∧
  procFlags p = [false, false, false, false, false]

theorem procNeutral_zero : ProcNeutral zeroProcessStats := ⟨rfl, rfl⟩

theorem procNeutral_lookup {m : List (Nat × ProcessStats)}
    (hm : ∀ e ∈ m, ProcNeutral e.2) (pid : Nat) :
    ProcNeutral ((alLookup m pid).getD zeroProcessStats) := by
  cases hl : alLookup m pid with
  | none => exact procNeutral_zero
  | some v => exact hm _ (alLookup_mem hl)

theorem procNeutral_alInsert {m : List (Nat × ProcessStats)} {pid : Nat}
    {v : ProcessStats} (hm : ∀ e ∈ m, ProcNeutral e.2) (hv : ProcNeutral v) :
    ∀ e ∈ alInsert m pid v, ProcNeutral e.2 := by
  intro e he
  rcases mem_alInsert he with h | h
  · rw [h]; exact hv
  · exact hm _ h

/-- On the first reading, the per-pid loop body creates/updates only
neutral records (parses copy raw fields, metrics are suppressed, and the
threshold flags of an all-zero record are all false). -/
theorem updatePid_neutral (prev : List (Nat × ProcessStats))
    (okStat okStatus okIo : Nat → Bool) (raw : Nat → ProcRaw) (pid : Nat)
    {m : List (Nat × ProcessStats)} (hm : ∀ e ∈ m, ProcNeutral e.2) :
    ∀ e ∈ ProcessMonitor.updatePid true prev okStat okStatus okIo raw m pid,
      ProcNeutral e.2 := by
  unfold ProcessMonitor.updatePid
  by_cases h1 : okStat pid
  case neg => simpa [h1] using hm
  rw [if_pos h1]
  have hm1 : ∀ e ∈ ProcessMonitor.parseProcessStat m pid (raw pid),
      ProcNeutral e.2 := by
    unfold ProcessMonitor.parseProcessStat
    exact procNeutral_alInsert hm (procNeutral_lookup hm pid)
  by_cases h2 : okStatus pid
  case neg => simpa [h2] using hm1
  rw [if_pos h2]
  have hm2 : ∀ e ∈ ProcessMonitor.parseProcessStatus
      (ProcessMonitor.parseProcessStat m pid (raw pid)) pid (raw pid),
      ProcNeutral e.2 := by
    unfold ProcessMonitor.parseProcessStatus
    exact procNeutral_alInsert hm1 (procNeutral_lookup hm1 pid)
  by_cases h3 : okIo pid
  case neg => simpa [h3] using hm2
  rw [if_pos h3]
  have hm3 : ∀ e ∈ ProcessMonitor.parseProcessIo
      (ProcessMonitor.parseProcessStatus
        (ProcessMonitor.parseProcessStat m pid (raw pid)) pid (raw pid))
      pid (raw pid), ProcNeutral e.2 := by
    unfold ProcessMonitor.parseProcessIo
    exact procNeutral_alInsert hm2 (procNeutral_lookup hm2 pid)
  have hcalc : ProcessMonitor.calculateProcessMetrics true prev
      (ProcessMonitor.parseProcessIo
        (ProcessMonitor.parseProcessStatus
          (ProcessMonitor.parseProcessStat m pid (raw pid)) pid (raw pid))
        pid (raw pid)) pid =
      ProcessMonitor.parseProcessIo
        (ProcessMonitor.parseProcessStatus
          (ProcessMonitor.parseProcessStat m pid (raw pid)) pid (raw pid))
        pid (raw pid) := by
    unfold ProcessMonitor.calculateProcessMetrics
    rw [if_pos rfl]
  simp only [hcalc]
  unfold ProcessMonitor.detectProcessBottlenecks
  have hs := procNeutral_lookup hm3 pid
  obtain ⟨hd, hf⟩ := hs
  simp only [procDerived, List.cons.injEq, and_true] at hd
  obtain ⟨d1, d2, d3, d4, d5, d6, d7⟩ := hd
  refine procNeutral_alInsert hm3 ⟨?_, ?_⟩
  · simpa [procDerived] using ⟨d1, d2, d3, d4, d5, d6, d7⟩
  · simp [procFlags, d1, d2, d4, d6, d7]

/-- First process `update()` call from the freshly constructed monitor:
every tracked entry has all-zero derived metrics and clear flags. -/
theorem process_first_preserves (alive : List Nat)
    (okStat okStatus okIo : Nat → Bool) (raw : Nat → ProcRaw) :
    ∀ e ∈ (ProcessMonitor.update alive okStat okStatus okIo raw
      procInit0).process_stats, ProcNeutral e.2 := by
  intro e he
  have hfold : ∀ (l : List Nat) (m : List (Nat × ProcessStats)),
      (∀ e ∈ m, ProcNeutral e.2) →
      ∀ e ∈ l.foldl (ProcessMonitor.updatePid true ([] : List (Nat × ProcessStats))
        okStat okStatus okIo raw) m, ProcNeutral e.2 := by
    intro l
    induction l with
    | nil => intro m hm; simpa using hm
    | cons p rest ih =>
      intro m hm
      exact ih _ (updatePid_neutral _ okStat okStatus okIo raw p hm)
  have he' : e ∈ alive.foldl (ProcessMonitor.updatePid true
      ([] : List (Nat × ProcessStats)) okStat okStatus okIo raw)
      ([] : List (Nat × ProcessStats)) ∧ e.1 ∈ alive := by
    simpa [ProcessMonitor.update, procInit0] using he
  exact hfold alive [] (by simp) e he'.1

/-- Second process `update()` call on a single-pid monitor with successful
parses: the pid's CPU percentage is computed from the tick's delta. -/
theorem process_second_populates (s : ProcessMonitorState) (pid : Nat)
    (p : ProcessStats) (okStat okStatus okIo : Nat → Bool)
    (raw : Nat → ProcRaw) (hm : s.process_stats = [(pid, p)])
    (h : s.first_reading = false) (h1 : okStat pid = true)
    (h2 : okStatus pid = true) (h3 : okIo pid = true) :
    ((alLookup (ProcessMonitor.update [pid] okStat okStatus okIo raw
        s).process_stats pid).getD zeroProcessStats).cpu_usage_percent =
      (((usub (raw pid).utime p.utime +
          usub (raw pid).stime p.stime) % W : Nat) : ℚ) / 100 := by
  simp [ProcessMonitor.update, ProcessMonitor.updatePid, hm, h, h1, h2, h3,
    ProcessMonitor.parseProcessStat, ProcessMonitor.parseProcessStatus,
    ProcessMonitor.parseProcessIo, ProcessMonitor.calculateProcessMetrics,
    ProcessMonitor.detectProcessBottlenecks, alInsert, alLookup]

instance (p : ProcessStats) : Decidable (ProcNeutral p) := by
  unfold ProcNeutral; infer_instance

/-- C2 fails as stated for MemoryMonitor: the very first `update()` call
already computes the memory percentages (75% at total=1000 kB,
available=250 kB) instead of leaving them at their neutral initial value —
`MemoryMonitor::update` has no first-reading guard. -/
theorem C2_counterexample :
    memZero.memory_usage_percent = 0 ∧
    (MemoryMonitor.update memZero memRawGood).memory_usage_percent = 75 ∧
    (75 : ℚ) ≠ 0 := by
  refine ⟨rfl, ?_, by norm_num⟩
  norm_num [MemoryMonitor.update, MemoryMonitor.parseMemInfo,
    MemoryMonitor.calculatePercentages, MemoryMonitor.detectBottlenecks,
    memZero, memRawGood, usub, W]

/-- C2 (amended): for the five delta-based samplers — CpuMonitor,
StorageMonitor, NumaMonitor, PerfMonitor, ProcessMonitor — the first call to
`update()` never populates any delta-derived rate or percentage field (each
stays at its prior/neutral value), and the second call, given changed
counters, does populate them.  MemoryMonitor is excluded: its percentages
come from the current snapshot alone and are populated on the first call. -/
theorem C2_amended :
    (∀ (s : CpuMonitorState) (r : CpuRaw), s.first_reading = true →
      cpuPercents ((CpuMonitor.update s r).current) = cpuPercents s.current) ∧
    (∀ (s : CpuMonitorState) (r : CpuRaw), s.first_reading = false →
      CpuLeRaw s.current r → CpuRawBounded r → 0 < cpuDeltaRaw s.current r →
      cpuDeltaRaw s.current r < W →
      (CpuMonitor.update s r).current.user_percent =
        100 * ((r.user - s.current.user : Nat) : ℚ) /
          cpuDeltaRaw s.current r) ∧
    (∀ (s : StorageMonitorState) (rows : List DiskRaw), s.disk_stats = [] →
      s.first_reading = true →
      ∀ e ∈ (StorageMonitor.update s rows).disk_stats,
        diskRates e.2 = [0, 0, 0, 0, 0, 0, 0, 0]) ∧
    (∀ (s : StorageMonitorState) (d : String) (p : DiskStats)
      (row : DiskRaw), s.disk_stats = [(d, p)] → s.first_reading = false →
      row.device_name = d → d ∈ s.devices →
      (StorageMonitor.update s [row]).disk_stats =
        [(d, { StorageMonitor.calcDevice p (StorageMonitor.freshStats row)
                with is_hot_device := true })] ∧
      (StorageMonitor.calcDevice p
        (StorageMonitor.freshStats row)).total_iops =
        (((usub row.reads p.reads + usub row.writes p.writes) % W : Nat) :
          ℚ)) ∧
    (∀ (s : NumaMonitorState) (r : VmstatRaw)
      (nodeR : Int → Option (Nat × Nat)), s.first_reading = true →
      vmstatDerived ((NumaMonitor.update r nodeR s).current_vmstat) =
        vmstatDerived s.current_vmstat ∧
      vmstatFlags ((NumaMonitor.update r nodeR s).current_vmstat) =
        vmstatFlags s.current_vmstat) ∧
    (∀ (s : NumaMonitorState) (r : VmstatRaw)
      (nodeR : Int → Option (Nat × Nat)), s.first_reading = false →
      (NumaMonitor.update r nodeR s).current_vmstat.page_fault_rate =
        ((usub r.pgfault s.current_vmstat.pgfault : Nat) : ℚ) ∧
      (NumaMonitor.update r nodeR s).current_vmstat.major_fault_rate =
        ((usub r.pgmajfault s.current_vmstat.pgmajfault : Nat) : ℚ)) ∧
    (∀ (opens : List Bool) (r : PerfRaw) (s : PerfMonitorState),
      s.initialized = true → s.first_reading = true →
      perfDerived ((PerfMonitor.update opens r s).2.current) =
        perfDerived s.current) ∧
    (∀ (opens : List Bool) (r : PerfRaw) (s : PerfMonitorState),
      s.initialized = true → s.first_reading = false →
      0 < usub r.cpu_cycles s.current.cpu_cycles →
      (PerfMonitor.update opens r s).2.current.ipc =
        ((usub r.instructions s.current.instructions : Nat) : ℚ) /
          ((usub r.cpu_cycles s.current.cpu_cycles : Nat) : ℚ) ∧
      (PerfMonitor.update opens r s).2.current.context_switch_rate =
        ((usub r.context_switches s.current.context_switches : Nat) : ℚ)) ∧
    (∀ (alive : List Nat) (okStat okStatus okIo : Nat → Bool)
      (raw : Nat → ProcRaw),
      ∀ e ∈ (ProcessMonitor.update alive okStat okStatus okIo raw
        procInit0).process_stats, ProcNeutral e.2) ∧
    (∀ (s : ProcessMonitorState) (pid : Nat) (p : ProcessStats)
      (okStat okStatus okIo : Nat → Bool) (raw : Nat → ProcRaw),
      s.process_stats = [(pid, p)] → s.first_reading = false →
      okStat pid = true → okStatus pid = true → okIo pid = true →
      ((alLookup (ProcessMonitor.update [pid] okStat okStatus okIo raw
          s).process_stats pid).getD zeroProcessStats).cpu_usage_percent =
        (((usub (raw pid).utime p.utime +
            usub (raw pid).stime p.stime) % W : Nat) : ℚ) / 100) :=
  ⟨cpu_first_preserves, cpu_second_populates, storage_first_preserves,
   storage_second_populates, numa_first_preserves, numa_second_populates,
   perf_first_preserves, perf_second_populates, process_first_preserves,
   process_second_populates⟩

/-- Concrete materials for the C2 witness. -/
def cpuMonStart : CpuMonitorState := ⟨cpuZero, cpuZero, true⟩

def cpuRawA : CpuRaw := ⟨3, 0, 0, 1, 0, 0, 0, 0, 0, 0⟩

def cpuRawB : CpuRaw := ⟨6, 0, 0, 2, 0, 0, 0, 0, 0, 0⟩

def cpuMonAfter1 : CpuMonitorState := CpuMonitor.update cpuMonStart cpuRawA

def diskRowA : DiskRaw := ⟨"nvme0n1", 0, 0, 0, 0, 0, 0, 0, 0, 0, 0, 0⟩

/-- Second-tick reading: 200 reads and 50 writes (the §8 spec instance). -/
def diskRowB : DiskRaw := ⟨"nvme0n1", 200, 0, 0, 0, 50, 0, 0, 0, 0, 0, 0⟩

def storMon0 : StorageMonitorState :=
  { disk_stats := [], previous_stats := [], queue_stats := [],
    devices := ["nvme0n1"], first_reading := true }

def storMon1 : StorageMonitorState :=
  { disk_stats := [("nvme0n1", StorageMonitor.freshStats diskRowA)],
    previous_stats := [], queue_stats := [], devices := ["nvme0n1"],
    first_reading := false }

def numaStart : NumaMonitorState :=
  { numa_nodes := [], current_vmstat := vmstatZero,
    previous_vmstat := vmstatZero, first_reading := true }

def perfReady : PerfMonitorState :=
  { current := perfZero, previous := perfZero, first_reading := true,
    initialized := true }

def perfCur : PerfCounters := ⟨1000, 2000, 500, 50, 300, 9, 40, 7, 0, 0, 0, 0, 0⟩

def perfPast : PerfMonitorState :=
  { current := perfCur, previous := perfZero, first_reading := false,
    initialized := true }

def perfRawB : PerfRaw := ⟨3000, 4000, 900, 90, 500, 14, 90, 12⟩

/-- C2 amended, at concrete inputs: each of the ten conjuncts applied to a
concrete first/second tick. -/
theorem C2_amended_witness :
    cpuPercents ((CpuMonitor.update cpuMonStart cpuRawA).current) =
      cpuPercents cpuMonStart.current ∧
    (CpuMonitor.update cpuMonAfter1 cpuRawB).current.user_percent =
      100 * ((cpuRawB.user - cpuMonAfter1.current.user : Nat) : ℚ) /
        cpuDeltaRaw cpuMonAfter1.current cpuRawB ∧
    ((StorageMonitor.update storMon0 [diskRowA]).disk_stats.all fun e =>
      decide (diskRates e.2 = [0, 0, 0, 0, 0, 0, 0, 0])) = true ∧
    (StorageMonitor.update storMon1 [diskRowB]).disk_stats =
      [("nvme0n1",
        { StorageMonitor.calcDevice (StorageMonitor.freshStats diskRowA)
            (StorageMonitor.freshStats diskRowB) with
            is_hot_device := true })] ∧
    (StorageMonitor.calcDevice (StorageMonitor.freshStats diskRowA)
      (StorageMonitor.freshStats diskRowB)).total_iops =
      (((usub diskRowB.reads (StorageMonitor.freshStats diskRowA).reads +
        usub diskRowB.writes (StorageMonitor.freshStats diskRowA).writes) %
          W : Nat) : ℚ) ∧
    vmstatDerived ((NumaMonitor.update vmstatRawDirty1200 (fun _ => none)
      numaStart).current_vmstat) = vmstatDerived numaStart.current_vmstat ∧
    (NumaMonitor.update vmstatRawDirty1200 (fun _ => none)
      numaPastFirst).current_vmstat.page_fault_rate =
      ((usub vmstatRawDirty1200.pgfault
        numaPastFirst.current_vmstat.pgfault : Nat) : ℚ) ∧
    perfDerived ((PerfMonitor.update opensAllOk perfRawB
      perfReady).2.current) = perfDerived perfReady.current ∧
    (PerfMonitor.update opensAllOk perfRawB perfPast).2.current.ipc =
      ((usub perfRawB.instructions perfPast.current.instructions : Nat) : ℚ) /
        ((usub perfRawB.cpu_cycles perfPast.current.cpu_cycles : Nat) : ℚ) ∧
    ((ProcessMonitor.update [5] okAll okAll okAll procRawOf
      procInit0).process_stats.all fun e => decide (ProcNeutral e.2)) =
      true ∧
    ((alLookup (ProcessMonitor.update [7] okAll okAll okAll procRawOf
        procTracking7).process_stats 7).getD
      zeroProcessStats).cpu_usage_percent =
      (((usub (procRawOf 7).utime zeroProcessStats.utime +
          usub (procRawOf 7).stime zeroProcessStats.stime) % W : Nat) : ℚ) /
        100 := by
  obtain ⟨hA, hB, hC, hD, hE, hF, hG, hH, hI, hJ⟩ := C2_amended
  refine ⟨hA cpuMonStart cpuRawA rfl,
    hB cpuMonAfter1 cpuRawB (by decide) (by decide) (by decide) (by decide)
      (by decide),
    ?_,
    (hD storMon1 "nvme0n1" (StorageMonitor.freshStats diskRowA) diskRowB rfl
      rfl rfl (by decide)).1,
    (hD storMon1 "nvme0n1" (StorageMonitor.freshStats diskRowA) diskRowB rfl
      rfl rfl (by decide)).2,
    (hE numaStart vmstatRawDirty1200 (fun _ => none) rfl).1,
    (hF numaPastFirst vmstatRawDirty1200 (fun _ => none) rfl).1,
    hG opensAllOk perfRawB perfReady rfl rfl,
    (hH opensAllOk perfRawB perfPast rfl rfl (by decide)).1,
    ?_,
    hJ procTracking7 7 zeroProcessStats okAll okAll okAll procRawOf rfl rfl
      rfl rfl rfl⟩
  · rw [List.all_eq_true]
    intro e he
    exact decide_eq_true (hC storMon0 [diskRowA] rfl rfl e he)
  · rw [List.all_eq_true]
    intro e he
    exact decide_eq_true (hI [5] okAll okAll okAll procRawOf e he)

end SysProbe
